import Mathlib

/-!
Verification development for the online multi-target tracking algorithm of
`flydra-feature-detector/analysis/kalmanize.py` (classes `TrackedObject` and
`Tracker`).

Embedding conventions:
* All machine floating-point values are modelled as exact rationals (`ℚ`).
  The script's numeric tests are threshold comparisons; every comparison that
  the source performs on a square root (`np.sqrt(e) <= t`, `np.sqrt(e) > t`,
  and the median of a list of square roots against a threshold) is modelled
  sqrt-free by the equivalent comparison on squares, packaged in the helpers
  `sqrt_leB`, `sqrt_gtB` and `sqrt_avg_leB` below, each of which is proved
  equivalent to the corresponding statement about `Real.sqrt`.
* Python lists mutated by `append` are Lean lists extended at the tail;
  popping from the end of a Python list corresponds to walking the reversed
  Lean list.
* The per-frame observation tuples `(x, y)` are `Vec2`; the missing-value
  sentinel `(np.nan, np.nan)` stored by coasting steps is `Option.none`.
* The `adskalman.KalmanFilter` dependency is an external package (it is not
  part of this repository); it is modelled from the spec's Kalman Estimator
  contract (spec section 4.1), see `KalmanFilter` below.
-/

namespace Kalmanize

/-- A 2-vector (an observed position, in meters). -/
structure Vec2 where
  x : ℚ
  y : ℚ
deriving DecidableEq, Repr

/-- A 4-vector (the state `[x, y, xvel, yvel]`). -/
structure Vec4 where
  x : ℚ
  y : ℚ
  vx : ℚ
  vy : ℚ
deriving DecidableEq, Repr

/-- A 2×2 matrix (innovation covariance `S`, observation noise `R`). -/
structure Mat2 where
  m00 : ℚ
  m01 : ℚ
  m10 : ℚ
  m11 : ℚ
deriving DecidableEq, Repr

/-- A 4×4 matrix (state covariance, motion model, process noise). -/
structure Mat4 where
  m00 : ℚ
  m01 : ℚ
  m02 : ℚ
  m03 : ℚ
  m10 : ℚ
  m11 : ℚ
  m12 : ℚ
  m13 : ℚ
  m20 : ℚ
  m21 : ℚ
  m22 : ℚ
  m23 : ℚ
  m30 : ℚ
  m31 : ℚ
  m32 : ℚ
  m33 : ℚ
deriving DecidableEq, Repr

/-- A 2×4 matrix (the observation model `C`). -/
structure Mat24 where
  m00 : ℚ
  m01 : ℚ
  m02 : ℚ
  m03 : ℚ
  m10 : ℚ
  m11 : ℚ
  m12 : ℚ
  m13 : ℚ
deriving DecidableEq, Repr

/-- A 4×2 matrix (the Kalman gain `K`). -/
structure Mat42 where
  m00 : ℚ
  m01 : ℚ
  m10 : ℚ
  m11 : ℚ
  m20 : ℚ
  m21 : ℚ
  m30 : ℚ
  m31 : ℚ
deriving DecidableEq, Repr

/-- A 3×3 homogeneous coordinate transform (`meters_to_pixels`). -/
structure Mat3 where
  m00 : ℚ
  m01 : ℚ
  m02 : ℚ
  m10 : ℚ
  m11 : ℚ
  m12 : ℚ
  m20 : ℚ
  m21 : ℚ
  m22 : ℚ
deriving DecidableEq, Repr

def vec2Sub (a b : Vec2) : Vec2 :=
  ⟨a.x - b.x, a.y - b.y⟩

def vec4Add (a b : Vec4) : Vec4 :=
  ⟨a.x + b.x, a.y + b.y, a.vx + b.vx, a.vy + b.vy⟩

def mat2Add (A B : Mat2) : Mat2 :=
  ⟨A.m00 + B.m00, A.m01 + B.m01, A.m10 + B.m10, A.m11 + B.m11⟩

/-- Inverse of a 2×2 matrix by the adjugate formula (`numpy.linalg.inv` on the
innovation covariance; exact in `ℚ`, and total with the junk value of division
by a zero determinant, which does not occur for the positive-definite `S`). -/
def mat2Inv (A : Mat2) : Mat2 :=
  let d := A.m00 * A.m11 - A.m01 * A.m10
  ⟨A.m11 / d, -A.m01 / d, -A.m10 / d, A.m00 / d⟩

def mat4Transpose (A : Mat4) : Mat4 :=
  ⟨A.m00, A.m10, A.m20, A.m30,
   A.m01, A.m11, A.m21, A.m31,
   A.m02, A.m12, A.m22, A.m32,
   A.m03, A.m13, A.m23, A.m33⟩

def mat24Transpose (A : Mat24) : Mat42 :=
  ⟨A.m00, A.m10, A.m01, A.m11, A.m02, A.m12, A.m03, A.m13⟩

def mat4Add (A B : Mat4) : Mat4 :=
  ⟨A.m00 + B.m00, A.m01 + B.m01, A.m02 + B.m02, A.m03 + B.m03,
   A.m10 + B.m10, A.m11 + B.m11, A.m12 + B.m12, A.m13 + B.m13,
   A.m20 + B.m20, A.m21 + B.m21, A.m22 + B.m22, A.m23 + B.m23,
   A.m30 + B.m30, A.m31 + B.m31, A.m32 + B.m32, A.m33 + B.m33⟩

def mat4Sub (A B : Mat4) : Mat4 :=
  ⟨A.m00 - B.m00, A.m01 - B.m01, A.m02 - B.m02, A.m03 - B.m03,
   A.m10 - B.m10, A.m11 - B.m11, A.m12 - B.m12, A.m13 - B.m13,
   A.m20 - B.m20, A.m21 - B.m21, A.m22 - B.m22, A.m23 - B.m23,
   A.m30 - B.m30, A.m31 - B.m31, A.m32 - B.m32, A.m33 - B.m33⟩

def mat4Mul (A B : Mat4) : Mat4 :=
  ⟨A.m00 * B.m00 + A.m01 * B.m10 + A.m02 * B.m20 + A.m03 * B.m30,
   A.m00 * B.m01 + A.m01 * B.m11 + A.m02 * B.m21 + A.m03 * B.m31,
   A.m00 * B.m02 + A.m01 * B.m12 + A.m02 * B.m22 + A.m03 * B.m32,
   A.m00 * B.m03 + A.m01 * B.m13 + A.m02 * B.m23 + A.m03 * B.m33,
   A.m10 * B.m00 + A.m11 * B.m10 + A.m12 * B.m20 + A.m13 * B.m30,
   A.m10 * B.m01 + A.m11 * B.m11 + A.m12 * B.m21 + A.m13 * B.m31,
   A.m10 * B.m02 + A.m11 * B.m12 + A.m12 * B.m22 + A.m13 * B.m32,
   A.m10 * B.m03 + A.m11 * B.m13 + A.m12 * B.m23 + A.m13 * B.m33,
   A.m20 * B.m00 + A.m21 * B.m10 + A.m22 * B.m20 + A.m23 * B.m30,
   A.m20 * B.m01 + A.m21 * B.m11 + A.m22 * B.m21 + A.m23 * B.m31,
   A.m20 * B.m02 + A.m21 * B.m12 + A.m22 * B.m22 + A.m23 * B.m32,
   A.m20 * B.m03 + A.m21 * B.m13 + A.m22 * B.m23 + A.m23 * B.m33,
   A.m30 * B.m00 + A.m31 * B.m10 + A.m32 * B.m20 + A.m33 * B.m30,
   A.m30 * B.m01 + A.m31 * B.m11 + A.m32 * B.m21 + A.m33 * B.m31,
   A.m30 * B.m02 + A.m31 * B.m12 + A.m32 * B.m22 + A.m33 * B.m32,
   A.m30 * B.m03 + A.m31 * B.m13 + A.m32 * B.m23 + A.m33 * B.m33⟩

def mat4MulVec (A : Mat4) (v : Vec4) : Vec4 :=
  ⟨A.m00 * v.x + A.m01 * v.y + A.m02 * v.vx + A.m03 * v.vy,
   A.m10 * v.x + A.m11 * v.y + A.m12 * v.vx + A.m13 * v.vy,
   A.m20 * v.x + A.m21 * v.y + A.m22 * v.vx + A.m23 * v.vy,
   A.m30 * v.x + A.m31 * v.y + A.m32 * v.vx + A.m33 * v.vy⟩

def mat24MulMat4 (A : Mat24) (B : Mat4) : Mat24 :=
  ⟨A.m00 * B.m00 + A.m01 * B.m10 + A.m02 * B.m20 + A.m03 * B.m30,
   A.m00 * B.m01 + A.m01 * B.m11 + A.m02 * B.m21 + A.m03 * B.m31,
   A.m00 * B.m02 + A.m01 * B.m12 + A.m02 * B.m22 + A.m03 * B.m32,
   A.m00 * B.m03 + A.m01 * B.m13 + A.m02 * B.m23 + A.m03 * B.m33,
   A.m10 * B.m00 + A.m11 * B.m10 + A.m12 * B.m20 + A.m13 * B.m30,
   A.m10 * B.m01 + A.m11 * B.m11 + A.m12 * B.m21 + A.m13 * B.m31,
   A.m10 * B.m02 + A.m11 * B.m12 + A.m12 * B.m22 + A.m13 * B.m32,
   A.m10 * B.m03 + A.m11 * B.m13 + A.m12 * B.m23 + A.m13 * B.m33⟩

def mat24MulMat42 (A : Mat24) (B : Mat42) : Mat2 :=
  ⟨A.m00 * B.m00 + A.m01 * B.m10 + A.m02 * B.m20 + A.m03 * B.m30,
   A.m00 * B.m01 + A.m01 * B.m11 + A.m02 * B.m21 + A.m03 * B.m31,
   A.m10 * B.m00 + A.m11 * B.m10 + A.m12 * B.m20 + A.m13 * B.m30,
   A.m10 * B.m01 + A.m11 * B.m11 + A.m12 * B.m21 + A.m13 * B.m31⟩

def mat4MulMat42 (A : Mat4) (B : Mat42) : Mat42 :=
  ⟨A.m00 * B.m00 + A.m01 * B.m10 + A.m02 * B.m20 + A.m03 * B.m30,
   A.m00 * B.m01 + A.m01 * B.m11 + A.m02 * B.m21 + A.m03 * B.m31,
   A.m10 * B.m00 + A.m11 * B.m10 + A.m12 * B.m20 + A.m13 * B.m30,
   A.m10 * B.m01 + A.m11 * B.m11 + A.m12 * B.m21 + A.m13 * B.m31,
   A.m20 * B.m00 + A.m21 * B.m10 + A.m22 * B.m20 + A.m23 * B.m30,
   A.m20 * B.m01 + A.m21 * B.m11 + A.m22 * B.m21 + A.m23 * B.m31,
   A.m30 * B.m00 + A.m31 * B.m10 + A.m32 * B.m20 + A.m33 * B.m30,
   A.m30 * B.m01 + A.m31 * B.m11 + A.m32 * B.m21 + A.m33 * B.m31⟩

def mat42MulMat2 (A : Mat42) (B : Mat2) : Mat42 :=
  ⟨A.m00 * B.m00 + A.m01 * B.m10, A.m00 * B.m01 + A.m01 * B.m11,
   A.m10 * B.m00 + A.m11 * B.m10, A.m10 * B.m01 + A.m11 * B.m11,
   A.m20 * B.m00 + A.m21 * B.m10, A.m20 * B.m01 + A.m21 * B.m11,
   A.m30 * B.m00 + A.m31 * B.m10, A.m30 * B.m01 + A.m31 * B.m11⟩

def mat42MulMat24 (A : Mat42) (B : Mat24) : Mat4 :=
  ⟨A.m00 * B.m00 + A.m01 * B.m10, A.m00 * B.m01 + A.m01 * B.m11,
   A.m00 * B.m02 + A.m01 * B.m12, A.m00 * B.m03 + A.m01 * B.m13,
   A.m10 * B.m00 + A.m11 * B.m10, A.m10 * B.m01 + A.m11 * B.m11,
   A.m10 * B.m02 + A.m11 * B.m12, A.m10 * B.m03 + A.m11 * B.m13,
   A.m20 * B.m00 + A.m21 * B.m10, A.m20 * B.m01 + A.m21 * B.m11,
   A.m20 * B.m02 + A.m21 * B.m12, A.m20 * B.m03 + A.m21 * B.m13,
   A.m30 * B.m00 + A.m31 * B.m10, A.m30 * B.m01 + A.m31 * B.m11,
   A.m30 * B.m02 + A.m31 * B.m12, A.m30 * B.m03 + A.m31 * B.m13⟩

def mat24MulVec4 (A : Mat24) (v : Vec4) : Vec2 :=
  ⟨A.m00 * v.x + A.m01 * v.y + A.m02 * v.vx + A.m03 * v.vy,
   A.m10 * v.x + A.m11 * v.y + A.m12 * v.vx + A.m13 * v.vy⟩

def mat42MulVec2 (A : Mat42) (v : Vec2) : Vec4 :=
  ⟨A.m00 * v.x + A.m01 * v.y,
   A.m10 * v.x + A.m11 * v.y,
   A.m20 * v.x + A.m21 * v.y,
   A.m30 * v.x + A.m31 * v.y⟩

def mat4Identity : Mat4 :=
  ⟨1, 0, 0, 0, 0, 1, 0, 0, 0, 0, 1, 0, 0, 0, 0, 1⟩

/-- Modelled from the spec: the `adskalman.KalmanFilter` used by
`kalmanize.py` is an external package not contained in this repository.  The
spec's Kalman Estimator contract (section 4.1) fixes its behavior: `predict`
applies `state' = F*state`, `covariance' = F*covariance*Ft + Q`; `update`
performs the standard Kalman gain computation and correction with the fixed
observation model and noise, and with an absent observation the posterior
equals the prior.  `kalmanize.py` drives the filter through `step` (with
`isinitial=True` at birth, meaning the stored initial state and covariance
are used as the prior instead of predicting), `step1__calculate_a_priori`
(compute the prior without committing) and `step2__calculate_a_posteri`
(correct with an observation and commit).  Fields follow the script's
variable names: `A` is the motion model `F`, `C` the observation model. -/
structure KalmanFilter where
  A : Mat4
  C : Mat24
  Q : Mat4
  R : Mat2
  xhat : Vec4
  P : Mat4
deriving DecidableEq, Repr

/-- The a-priori estimate: predict one step ahead from the committed
posterior, or return the stored initial estimate when `isinitial` is set.
This performs no commit (`step1__calculate_a_priori`). -/
def KalmanFilter.step1 (kf : KalmanFilter) (isinitial : Bool) : Vec4 × Mat4 :=
  if isinitial then (kf.xhat, kf.P)
  else (mat4MulVec kf.A kf.xhat,
        mat4Add (mat4Mul (mat4Mul kf.A kf.P) (mat4Transpose kf.A)) kf.Q)

/-- The a-posteriori estimate from a given prior (`step2__calculate_a_posteri`):
with an observation, the standard Kalman correction
`S = C P Ct + R`, `K = P Ct S^-1`, `x = x + K (y - C x)`, `P = (I - K C) P`;
with no observation the posterior equals the prior.  The posterior is
committed into the filter; the function returns the new filter together with
the posterior state and covariance. -/
def KalmanFilter.step2 (kf : KalmanFilter) (prior : Vec4 × Mat4)
    (y : Option Vec2) : KalmanFilter × Vec4 × Mat4 :=
  match y with
  | none =>
    ({ kf with xhat := prior.1, P := prior.2 }, prior.1, prior.2)
  | some obs =>
    let S := mat2Add (mat24MulMat42 (mat24MulMat4 kf.C prior.2)
      (mat24Transpose kf.C)) kf.R
    let K := mat42MulMat2 (mat4MulMat42 prior.2 (mat24Transpose kf.C))
      (mat2Inv S)
    let resid := vec2Sub obs (mat24MulVec4 kf.C prior.1)
    let xpost := vec4Add prior.1 (mat42MulVec2 K resid)
    let Ppost := mat4Mul (mat4Sub mat4Identity (mat42MulMat24 K kf.C)) prior.2
    ({ kf with xhat := xpost, P := Ppost }, xpost, Ppost)

/-- One full filter step (`KalmanFilter.step`): compute the prior (initial or
predicted) and correct it with the observation, if any. -/
def KalmanFilter.step (kf : KalmanFilter) (y : Option Vec2)
    (isinitial : Bool) : KalmanFilter × Vec4 × Mat4 :=
  kf.step2 (kf.step1 isinitial) y

/-!
Square-root-free comparison helpers.  The script compares square roots of
nonnegative quantities against thresholds; since both sides are real numbers
these comparisons are equivalent to comparisons of squares, which stay inside
`ℚ` and are decidable.  Soundness lemmas relating each helper to `Real.sqrt`
are proved further below.
-/

/-- Decides `Real.sqrt m ≤ t` for `0 ≤ m`: false when `t` is negative (a
square root is nonnegative), else equivalent to `m ≤ t²`. -/
def sqrt_leB (m t : ℚ) : Bool :=
  if t < 0 then false else decide (m ≤ t ^ 2)

/-- Decides `t < Real.sqrt m` for `0 ≤ m` (the script's `scalar > threshold`):
true when `t` is negative, else equivalent to `t² < m`. -/
def sqrt_gtB (m t : ℚ) : Bool :=
  if t < 0 then true else decide (t ^ 2 < m)

/-- Decides `(Real.sqrt a + Real.sqrt b) / 2 ≤ t` for `0 ≤ a`, `0 ≤ b` (the
even-length case of `np.median` over a list of square roots).  Derivation:
for `t < 0` the claim is false since square roots are nonnegative; otherwise
`√a + √b ≤ 2t ↔ a + b + 2√(ab) ≤ 4t² ↔ 2√(ab) ≤ 4t² - (a+b)`, which holds
iff `0 ≤ 4t² - (a+b)` and `4ab ≤ (4t² - (a+b))²`. -/
def sqrt_avg_leB (a b t : ℚ) : Bool :=
  if t < 0 then false
  else decide (0 ≤ 4 * t ^ 2 - (a + b)) &&
    decide (4 * (a * b) ≤ (4 * t ^ 2 - (a + b)) ^ 2)

/-!
Constants of `TrackedObject._init_kfilt`.  `covar_scale = 10.0` and the
`dt³/3, dt²/2, dt` block structure are written out directly in
`motion_noise_covariance`.
-/

/-- The constant-velocity motion model `F` (4×4, `dt` in the upper right
2×2 block). -/
def motion_model (dt : ℚ) : Mat4 :=
  ⟨1, 0, dt, 0,
   0, 1, 0, dt,
   0, 0, 1, 0,
   0, 0, 0, 1⟩

/-- The process noise `Q = covar_scale * [[T33,0,T22,0],[0,T33,0,T22],
[T22,0,T,0],[0,T22,0,T]]` with `covar_scale = 10`, `T33 = dt³/3`,
`T22 = dt²/2`, `T = dt`. -/
def motion_noise_covariance (dt : ℚ) : Mat4 :=
  ⟨10 * (dt ^ 3 / 3), 0, 10 * (dt ^ 2 / 2), 0,
   0, 10 * (dt ^ 3 / 3), 0, 10 * (dt ^ 2 / 2),
   10 * (dt ^ 2 / 2), 0, 10 * dt, 0,
   0, 10 * (dt ^ 2 / 2), 0, 10 * dt⟩

/-- The observation model `C` (position only). -/
def observation_model : Mat24 :=
  ⟨1, 0, 0, 0,
   0, 1, 0, 0⟩

/-- The observation noise `R = [[0.01, 0], [0, 0.01]]`. -/
def observation_noise_covariance : Mat2 :=
  ⟨1/100, 0, 0, 1/100⟩

/-- `data_association_distance_threshold_meters = 0.005` (5 mm). -/
def data_association_distance_threshold_meters : ℚ := 1/200

/-- `max_position_covarance = 7500.0 * dt³ / 3` (threshold to kill an ongoing
trajectory; the name keeps the source's spelling). -/
def max_position_covarance (dt : ℚ) : ℚ := 7500 * dt ^ 3 / 3

/-- `median_covar_scalar_threshold = 7111.0 * dt³ / 3` (threshold to save an
entire trajectory to disk). -/
def median_covar_scalar_threshold (dt : ℚ) : ℚ := 7111 * dt ^ 3 / 3

/-- `minimum_excursion_distance = 0.002` (2 mm). -/
def minimum_excursion_distance : ℚ := 1/500

/-- The initial covariance `initV = 0.1 * eye(4)`. -/
def initial_covariance : Mat4 :=
  ⟨1/10, 0, 0, 0,
   0, 1/10, 0, 0,
   0, 0, 1/10, 0,
   0, 0, 0, 1/10⟩

/-- The state of one `TrackedObject`: its id and `dt`, the filter created by
`_init_kfilt`/`handle_birth`, the `last_frame` bookkeeping variable, the four
per-frame history arrays, and `_last_observation_frame`. -/
structure TrackedObject where
  dt : ℚ
  obj_id : ℕ
  kfilt : KalmanFilter
  last_frame : ℤ
  state_estimates : List Vec4
  covariance_estimates : List Mat4
  observations : List (Option Vec2)
  frames : List ℤ
  last_observation_frame : ℤ
deriving DecidableEq, Repr

/-- The scalar uncertainty metric, squared: the source computes
`sqrt(P[0,0]**2 + P[1,1]**2)`; we keep its square (always nonnegative) and
compare with `sqrt_gtB`/`sqrt_leB`/`sqrt_avg_leB`. -/
def covar_scalar_sq (P : Mat4) : ℚ := P.m00 ^ 2 + P.m11 ^ 2

/-- `TrackedObject._check_is_done`: the uncertainty scalar of the most recent
covariance estimate exceeds `max_position_covarance`.  The history is never
empty when the source calls this (birth precedes); the `none` branch is dead
code returning `false`. -/
def TrackedObject.check_done (t : TrackedObject) : Bool :=
  match t.covariance_estimates.getLast? with
  | some P => sqrt_gtB (covar_scalar_sq P) (max_position_covarance t.dt)
  | none => false

/-- `TrackedObject.handle_birth` (together with `__init__` and `_init_kfilt`):
build the filter with `initx = [x, y, 0, 0]`, `initV = 0.1*eye(4)`, run one
`step(y=observation, isinitial=True)` and start all four history arrays with
the result. -/
def handle_birth (dt : ℚ) (obj_id : ℕ) (frame : ℤ) (observation : Vec2) :
    TrackedObject :=
  let kf0 : KalmanFilter :=
    { A := motion_model dt
      C := observation_model
      Q := motion_noise_covariance dt
      R := observation_noise_covariance
      xhat := ⟨observation.x, observation.y, 0, 0⟩
      P := initial_covariance }
  let r := kf0.step (some observation) true
  { dt := dt
    obj_id := obj_id
    kfilt := r.1
    last_frame := frame
    state_estimates := [r.2.1]
    covariance_estimates := [r.2.2]
    observations := [some observation]
    frames := [frame]
    last_observation_frame := frame }

/-- The integer list `range(lo, lo + n)` (Python's `range(a, b)` with
`n = max(b - a, 0)`). -/
def intRange (lo : ℤ) (n : ℕ) : List ℤ :=
  (List.range n).map (fun i => lo + (i : ℤ))

/-- The missing-frame replay loop heading `data_association_and_kalman_update`:
for each frame number in `range(self.last_frame+1, frame)` perform a Kalman
step with no observation, append it to the histories with the `(nan, nan)`
observation sentinel, set `self.last_frame = frame` (the source assigns the
target `frame`, not the missing frame number), and stop with `True` as soon
as `_check_is_done` fires. -/
def replay_missing (frame : ℤ) :
    TrackedObject → List ℤ → TrackedObject × Bool
  | t, [] => (t, false)
  | t, m :: rest =>
    let r := t.kfilt.step none false
    let t' : TrackedObject :=
      { t with
        kfilt := r.1
        state_estimates := t.state_estimates ++ [r.2.1]
        covariance_estimates := t.covariance_estimates ++ [r.2.2]
        observations := t.observations ++ [none]
        frames := t.frames ++ [m]
        last_frame := frame }
    if t'.check_done then (t', true)
    else replay_missing frame t' rest

/-- The squared Euclidean distance `np.sum((predicted-observation)**2)`. -/
def dist_sq (p o : Vec2) : ℚ := (p.x - o.x) ^ 2 + (p.y - o.y) ^ 2

/-- The observation scan of `data_association_and_kalman_update` (lines
97-112), as a pure function of the predicted position: walk
`orig_observations` in order; the first observation within the distance gate
is claimed (returned as `some`) and the scan stops (`break`), so the
observations after it are neither claimed nor added to
`unclaimed_observations`; observations scanned before the claim are
accumulated into the returned unclaimed list. -/
def associate (predicted : Vec2) :
    List Vec2 → List Vec2 × Option Vec2
  | [] => ([], none)
  | o :: rest =>
    if sqrt_leB (dist_sq predicted o) data_association_distance_threshold_meters
    then ([], some o)
    else
      let r := associate predicted rest
      (o :: r.1, r.2)

/-- `TrackedObject.data_association_and_kalman_update`: replay missing frames
(possibly finalizing early, returning `orig_observations` unchanged), then
compute the a-priori estimate, scan the observations for the first one within
the gate, commit an observation-corrected step when one is claimed, and
finally re-evaluate the termination criterion.  Returns the updated object,
the unclaimed observations, and `is_done`. -/
def data_association_and_kalman_update (frame : ℤ) (t : TrackedObject)
    (orig_observations : List Vec2) : TrackedObject × List Vec2 × Bool :=
  let missing := intRange (t.last_frame + 1) (frame - (t.last_frame + 1)).toNat
  let rp := replay_missing frame t missing
  if rp.2 then (rp.1, orig_observations, true)
  else
    let t1 := rp.1
    let prior := t1.kfilt.step1 false
    let predicted := mat24MulVec4 t1.kfilt.C prior.1
    let scan := associate predicted orig_observations
    let t2 : TrackedObject :=
      match scan.2 with
      | some o =>
        let r := t1.kfilt.step2 prior (some o)
        { t1 with
          kfilt := r.1
          state_estimates := t1.state_estimates ++ [r.2.1]
          covariance_estimates := t1.covariance_estimates ++ [r.2.2]
          observations := t1.observations ++ [some o]
          frames := t1.frames ++ [frame]
          last_observation_frame := frame }
      | none => t1
    (t2, scan.1, t2.check_done)

/-!
The `Tracker` class.  The results file is modelled as the list of records
written (header and float formatting are I/O details outside the embedding).
-/

/-- One output row of the results file: frame, obj_id, the four state
components, the four diagonal covariance components, the raw observation
(`none` prints as `nan,nan`), and the pixel-space position. -/
structure OutRec where
  frame : ℤ
  obj_id : ℕ
  pos_x : ℚ
  pos_y : ℚ
  vel_x : ℚ
  vel_y : ℚ
  P00 : ℚ
  P11 : ℚ
  P22 : ℚ
  P33 : ℚ
  obs : Option Vec2
  pos_x_pix : ℚ
  pos_y_pix : ℚ
deriving DecidableEq, Repr

/-- The maximum of a list (`np.max` over a nonempty array; the empty case,
which the source never reaches, returns 0). -/
def list_max : List ℚ → ℚ
  | [] => 0
  | x :: xs => xs.foldl max x

/-- The minimum of a list (`np.min` over a nonempty array). -/
def list_min : List ℚ → ℚ
  | [] => 0
  | x :: xs => xs.foldl min x

/-- The source's `excursion_distance = np.max(x_excursion, y_excursion)`.
`np.max` is a reduction whose SECOND positional parameter is `axis`, not a
second value: the call reduces the 0-d array `x_excursion` and passes
`y_excursion` as the axis.  Reducing a 0-d array yields its single element,
so the result is `x_excursion` and `y_excursion` is ignored (legacy NumPy
truncates the float axis to 0, which is accepted for 0-d input; NumPy since
1.12 instead raises `TypeError` for the non-integer axis, so the write is
never reached — under either behavior the trajectory is not persisted based
on the y-span).  We model the value-returning behavior. -/
def np_max_scalar_axis (a _axis : ℚ) : ℚ := a

/-- The trimming step at the head of `Tracker._save_data`: `last_idx` is the
index of the first frame strictly greater than `_last_observation_frame`
(`np.nonzero(frames > lof)[0][0]`), or the full length when there is none;
all four history arrays are cut to `[:last_idx]`.  `List.findIdx` returns the
length when no element satisfies the predicate, exactly matching the
`len(obj.frames)` fallback. -/
def trim_to_last_observation (t : TrackedObject) : TrackedObject :=
  let last_idx := t.frames.findIdx (fun fr => decide (t.last_observation_frame < fr))
  { t with
    frames := t.frames.take last_idx
    state_estimates := t.state_estimates.take last_idx
    covariance_estimates := t.covariance_estimates.take last_idx
    observations := t.observations.take last_idx }

/-- Decides whether `np.median` of the square roots of the entries of `l`
(each entry is a squared uncertainty scalar, hence nonnegative) is `≤ t`.
`np.median` sorts and takes the middle element (odd length) or the average of
the two middle elements (even length).  Sorting the squares orders them the
same way as sorting the square roots, since squaring is monotone on
nonnegatives. -/
def median_sqrt_leB (l : List ℚ) (t : ℚ) : Bool :=
  let s := l.mergeSort (fun a b => decide (a ≤ b))
  if s.length % 2 = 1 then sqrt_leB (s.getD (s.length / 2) 0) t
  else sqrt_avg_leB (s.getD (s.length / 2 - 1) 0) (s.getD (s.length / 2) 0) t

/-- The per-state pixel position: the homogeneous product
`xy_pixels_homog = Ainv . (x, y, 1)` followed by dividing out the third
coordinate. -/
def pixel_position (Ainv : Mat3) (s : Vec4) : ℚ × ℚ :=
  let px := Ainv.m00 * s.x + Ainv.m01 * s.y + Ainv.m02
  let py := Ainv.m10 * s.x + Ainv.m11 * s.y + Ainv.m12
  let pz := Ainv.m20 * s.x + Ainv.m21 * s.y + Ainv.m22
  (px / pz, py / pz)

/-- The `zip` of the write loop at the end of `_save_data`: one `OutRec` per
position of the four (equal-length, post-trim) history arrays, stopping at
the shortest as `zip` does. -/
def save_rows (Ainv : Mat3) (obj_id : ℕ) :
    List ℤ → List Vec4 → List Mat4 → List (Option Vec2) → List OutRec
  | f :: fs, s :: ss, c :: cs, o :: os =>
    let pix := pixel_position Ainv s
    { frame := f, obj_id := obj_id,
      pos_x := s.x, pos_y := s.y, vel_x := s.vx, vel_y := s.vy,
      P00 := c.m00, P11 := c.m11, P22 := c.m22, P33 := c.m33,
      obs := o, pos_x_pix := pix.1, pos_y_pix := pix.2 } ::
      save_rows Ainv obj_id fs ss cs os
  | _, _, _, _ => []

/-- `Tracker._save_data`: trim the histories past the last real observation,
compute the x- and y-excursions and `excursion_distance` (see
`np_max_scalar_axis`), compute the per-frame uncertainty scalars and their
median, and write the rows only if the median is within
`median_covar_scalar_threshold` and the excursion exceeds
`minimum_excursion_distance`; otherwise nothing is written. -/
def save_data (Ainv : Mat3) (obj : TrackedObject) : List OutRec :=
  let t := trim_to_last_observation obj
  let x_meters := t.state_estimates.map (fun s => s.x)
  let y_meters := t.state_estimates.map (fun s => s.y)
  let x_excursion := list_max x_meters - list_min x_meters
  let y_excursion := list_max y_meters - list_min y_meters
  let excursion_distance := np_max_scalar_axis x_excursion y_excursion
  let covar_scalars_sq := t.covariance_estimates.map covar_scalar_sq
  if !median_sqrt_leB covar_scalars_sq (median_covar_scalar_threshold obj.dt)
  then []
  else if !decide (minimum_excursion_distance < excursion_distance) then []
  else save_rows Ainv obj.obj_id t.frames t.state_estimates
    t.covariance_estimates t.observations

/-- The tracker: `dt`, the live objects `self._objects`, the id counter, the
meters-to-pixels transform, and the records written so far to the results
file. -/
structure Tracker where
  dt : ℚ
  objects : List TrackedObject
  next_obj_id : ℕ
  Ainv : Mat3
  output : List OutRec
deriving DecidableEq, Repr

/-- A fresh tracker (`Tracker.__init__`). -/
def initTracker (dt : ℚ) (Ainv : Mat3) : Tracker :=
  { dt := dt, objects := [], next_obj_id := 0, Ainv := Ainv, output := [] }

/-- The association loop of `Tracker.handle_frame_data`: pop objects from the
end of `self._objects` (modelled by walking the REVERSED list, so the input
here is `objects.reverse` and its head is the first object popped), update
each against the current unclaimed observations, collect survivors into
`living_objects` in pop order, and collect finalized objects (in finalize
order) for `_save_data`.  Returns
`(living_objects, unclaimed_observations, finalized_objects)`. -/
def association_pass (frame : ℤ) :
    List TrackedObject → List Vec2 →
    List TrackedObject × List Vec2 × List TrackedObject
  | [], u => ([], u, [])
  | obj :: rest, u =>
    let r := data_association_and_kalman_update frame obj u
    let rec_ := association_pass frame rest r.2.1
    if r.2.2 then (rec_.1, rec_.2.1, r.1 :: rec_.2.2)
    else (r.1 :: rec_.1, rec_.2.1, rec_.2.2)

/-- The birth loop of `Tracker.handle_frame_data`: pop observations from the
end of `unclaimed_observations` (the input here is the REVERSED unclaimed
list), giving each one a new object with the next id and appending it to
`self._objects`. -/
def birth_loop (dt : ℚ) (frame : ℤ) :
    List Vec2 → ℕ → List TrackedObject
  | [], _ => []
  | o :: rest, n => handle_birth dt n frame o :: birth_loop dt frame rest (n + 1)

/-- The objects created from the unclaimed observations of one frame: the
last list element is popped first and receives the first id. -/
def births (dt : ℚ) (frame : ℤ) (unclaimed : List Vec2) (n0 : ℕ) :
    List TrackedObject :=
  birth_loop dt frame unclaimed.reverse n0

/-- `Tracker.handle_frame_data` (after its `assert type(frame)==int` guard):
run the association loop over the live objects (saving finalized ones) and
then spawn a new object for each observation left in the unclaimed list. -/
def handle_frame_data (tr : Tracker) (frame : ℤ) (observations : List Vec2) :
    Tracker :=
  let r := association_pass frame tr.objects.reverse observations
  { tr with
    objects := r.1 ++ births tr.dt frame r.2.1 tr.next_obj_id
    next_obj_id := tr.next_obj_id + r.2.1.length
    output := tr.output ++ (r.2.2.map (save_data tr.Ainv)).flatten }

/-- The save loop of `Tracker.close`: pop remaining objects from the end of
the live list (input REVERSED, head popped first) and run `_save_data` on
each. -/
def close_loop (Ainv : Mat3) : List TrackedObject → List OutRec
  | [] => []
  | obj :: rest => save_data Ainv obj ++ close_loop Ainv rest

/-- `Tracker.close`: finalize every remaining live object. -/
def closeTracker (tr : Tracker) : Tracker :=
  { tr with objects := [], output := tr.output ++ close_loop tr.Ainv tr.objects.reverse }

/-- A full run: one `handle_frame_data` call per stream element followed by
`close`, as `main` drives the tracker. -/
def runTracker (dt : ℚ) (Ainv : Mat3) (stream : List (ℤ × List Vec2)) :
    Tracker :=
  closeTracker (stream.foldl (fun tr p => handle_frame_data tr p.1 p.2)
    (initTracker dt Ainv))

/-- The dynamic type of the `frame` argument at the Python call boundary:
`handle_frame_data` receives either a genuine Python `int`, or some other
runtime value such as a NumPy integer or a float.  Only the exact type
check `type(frame)==int` passes for `pyint`. -/
inductive PyFrameVal where
  | pyint (n : ℤ)
  | npint (n : ℤ)
  | pyfloat (q : ℚ)
deriving DecidableEq, Repr

/-- Whether `type(frame)==int` holds for the runtime value. -/
def PyFrameVal.isPyInt : PyFrameVal → Bool
  | .pyint _ => true
  | _ => false

/-- `Tracker.handle_frame_data` including its first statement
`assert type(frame)==int`: the Boolean flags whether an `AssertionError` was
raised.  The assert executes before any other statement of the method, so on
failure the (in-place mutated) tracker is returned unchanged. -/
def handle_frame_data_checked (tr : Tracker) (frame : PyFrameVal)
    (observations : List Vec2) : Bool × Tracker :=
  match frame with
  | .pyint n => (false, handle_frame_data tr n observations)
  | _ => (true, tr)


/-!
Observers and spec-side comparison definitions.
-/

/-- The order in which the pop loop of `Tracker.handle_frame_data` visits the
live objects (it pops from the end of `self._objects`): the reverse of the
stored list, as object ids. -/
def processing_order (tr : Tracker) : List ℕ :=
  (tr.objects.map (fun t => t.obj_id)).reverse

/-- The real (non-sentinel) observations recorded in an object's history at
frame `f`. -/
def claims_at (t : TrackedObject) (f : ℤ) : List Vec2 :=
  (t.frames.zip t.observations).filterMap (fun p => if p.1 = f then p.2 else none)

/-- Modelled from the spec: the spatial excursion as the larger of the x-span
and the y-span, `max(excursion_x, excursion_y)` — the value the spec asserts
the reference computes.  Compare with `np_max_scalar_axis`, which is what the
source line `np.max(x_excursion, y_excursion)` actually computes. -/
def spec_excursion_distance (x_excursion y_excursion : ℚ) : ℚ :=
  max x_excursion y_excursion

/-- Modelled from the spec: trimming the history "to the last frame at which
a real observation was received (discard trailing coast-only frames)" — every
trailing entry whose observation is the missing-value sentinel is dropped.
Compare with `trim_to_last_observation`, the source's cut at the first frame
number greater than `_last_observation_frame`. -/
def spec_trimmed_observations (obs : List (Option Vec2)) : List (Option Vec2) :=
  (obs.reverse.dropWhile (fun o => o.isNone)).reverse

/-!
Concrete inputs used by the counterexamples and witnesses.
-/

/-- The identity meters-to-pixels transform. -/
def id3 : Mat3 := ⟨1, 0, 0, 0, 1, 0, 0, 0, 1⟩

/-- A filter value for hand-built `TrackedObject`s whose filter state is
irrelevant (`_save_data` never reads it). -/
def dummy_kfilt : KalmanFilter :=
  { A := motion_model 1
    C := observation_model
    Q := motion_noise_covariance 1
    R := observation_noise_covariance
    xhat := ⟨0, 0, 0, 0⟩
    P := initial_covariance }

/-- A small diagonal covariance whose uncertainty scalar easily passes the
median quality gate for `dt = 1`. -/
def small_cov : Mat4 :=
  ⟨1/1000, 0, 0, 0,
   0, 1/1000, 0, 0,
   0, 0, 1/1000, 0,
   0, 0, 0, 1/1000⟩

/-- A finalized object whose estimates keep `x` constant while `y` moves by
10 mm: the spec's excursion `max(x_span, y_span) = 10 mm` passes the 2 mm
motion gate, but the source's `np.max(x_excursion, y_excursion)` ignores the
y-span. -/
def c1Obj : TrackedObject :=
  { dt := 1
    obj_id := 7
    kfilt := dummy_kfilt
    last_frame := 1
    state_estimates := [⟨0, 0, 0, 0⟩, ⟨0, 1/100, 0, 0⟩]
    covariance_estimates := [small_cov, small_cov]
    observations := [some ⟨0, 0⟩, some ⟨0, 1/100⟩]
    frames := [0, 1]
    last_observation_frame := 1 }

/-- A finalized object that passes both persistence gates (its `x` moves by
10 mm), used to witness the amended quality-gate theorem. -/
def c6wObj : TrackedObject :=
  { dt := 1
    obj_id := 3
    kfilt := dummy_kfilt
    last_frame := 1
    state_estimates := [⟨0, 0, 0, 0⟩, ⟨1/100, 0, 0, 0⟩]
    covariance_estimates := [small_cov, small_cov]
    observations := [some ⟨0, 0⟩, some ⟨1/100, 0⟩]
    frames := [0, 1]
    last_observation_frame := 1 }

/-!
Concrete tracker runs.  Each `run..` definition is a sequence of
`handle_frame_data` calls from a fresh tracker; the `..lit` definitions give
the reached states as printed literals, established by the staged evaluation
lemmas `stage_..`.
Run A (`dt = 1`): observation `(0,0)` at frames 0 and 1, nothing at frame 2.
Run C (`dt = 1`): observation `(0,0)` at frame 0; observations `(0,0)` and
`(1,0)` at frame 1.
Run D (`dt = 1`): observations `(0,0)` and `(1,0)` at frame 0, nothing at
frame 1.
Run E (`dt = 3/200`): observation `(0,0)` at frames 0 and 1.
-/

def runA0 : Tracker := handle_frame_data (initTracker 1 id3) 0 [⟨0, 0⟩]

def runA1 : Tracker := handle_frame_data runA0 1 [⟨0, 0⟩]

def runA2 : Tracker := handle_frame_data runA1 2 []

def runC1 : Tracker := handle_frame_data runA0 1 [⟨0, 0⟩, ⟨1, 0⟩]

def runD0 : Tracker := handle_frame_data (initTracker 1 id3) 0 [⟨0, 0⟩, ⟨1, 0⟩]

def runD1 : Tracker := handle_frame_data runD0 1 []

def runE0 : Tracker := handle_frame_data (initTracker (3/200) id3) 0 [⟨0, 0⟩]

def runE1 : Tracker := handle_frame_data runE0 1 [⟨0, 0⟩]

/-- The tracker state reached at this stage of the concrete runs (printed
literal; see the staged evaluation lemmas below). -/
def trA0lit : Tracker :=
  { dt := 1, objects := [{ dt := 1, obj_id := 0, kfilt := { A := { m00 := 1, m01 := 0, m02 := 1, m03 := 0, m10 := 0, m11 := 1, m12 := 0, m13 := 1, m20 := 0, m21 := 0, m22 := 1, m23 := 0, m30 := 0, m31 := 0, m32 := 0, m33 := 1 }, C := { m00 := 1, m01 := 0, m02 := 0, m03 := 0, m10 := 0, m11 := 1, m12 := 0, m13 := 0 }, Q := { m00 := (10 : Rat)/3, m01 := 0, m02 := 5, m03 := 0, m10 := 0, m11 := (10 : Rat)/3, m12 := 0, m13 := 5, m20 := 5, m21 := 0, m22 := 10, m23 := 0, m30 := 0, m31 := 5, m32 := 0, m33 := 10 }, R := { m00 := (1 : Rat)/100, m01 := 0, m10 := 0, m11 := (1 : Rat)/100 }, xhat := { x := 0, y := 0, vx := 0, vy := 0 }, P := { m00 := (1 : Rat)/110, m01 := 0, m02 := 0, m03 := 0, m10 := 0, m11 := (1 : Rat)/110, m12 := 0, m13 := 0, m20 := 0, m21 := 0, m22 := (1 : Rat)/10, m23 := 0, m30 := 0, m31 := 0, m32 := 0, m33 := (1 : Rat)/10 } }, last_frame := 0, state_estimates := [{ x := 0, y := 0, vx := 0, vy := 0 }], covariance_estimates := [{ m00 := (1 : Rat)/110, m01 := 0, m02 := 0, m03 := 0, m10 := 0, m11 := (1 : Rat)/110, m12 := 0, m13 := 0, m20 := 0, m21 := 0, m22 := (1 : Rat)/10, m23 := 0, m30 := 0, m31 := 0, m32 := 0, m33 := (1 : Rat)/10 }], observations := [some { x := 0, y := 0 }], frames := [0], last_observation_frame := 0 }], next_obj_id := 1, Ainv := { m00 := 1, m01 := 0, m02 := 0, m10 := 0, m11 := 1, m12 := 0, m20 := 0, m21 := 0, m22 := 1 }, output := [] }

/-- The tracker state reached at this stage of the concrete runs (printed
literal; see the staged evaluation lemmas below). -/
def trA1lit : Tracker :=
  { dt := 1, objects := [{ dt := 1, obj_id := 0, kfilt := { A := { m00 := 1, m01 := 0, m02 := 1, m03 := 0, m10 := 0, m11 := 1, m12 := 0, m13 := 1, m20 := 0, m21 := 0, m22 := 1, m23 := 0, m30 := 0, m31 := 0, m32 := 0, m33 := 1 }, C := { m00 := 1, m01 := 0, m02 := 0, m03 := 0, m10 := 0, m11 := 1, m12 := 0, m13 := 0 }, Q := { m00 := (10 : Rat)/3, m01 := 0, m02 := 5, m03 := 0, m10 := 0, m11 := (10 : Rat)/3, m12 := 0, m13 := 5, m20 := 5, m21 := 0, m22 := 10, m23 := 0, m30 := 0, m31 := 5, m32 := 0, m33 := 10 }, R := { m00 := (1 : Rat)/100, m01 := 0, m10 := 0, m11 := (1 : Rat)/100 }, xhat := { x := 0, y := 0, vx := 0, vy := 0 }, P := { m00 := (568 : Rat)/56965, m01 := 0, m02 := (1683 : Rat)/113930, m03 := 0, m10 := 0, m11 := (568 : Rat)/56965, m12 := 0, m13 := (1683 : Rat)/113930, m20 := (1683 : Rat)/113930, m21 := 0, m22 := (292363 : Rat)/113930, m23 := 0, m30 := 0, m31 := (1683 : Rat)/113930, m32 := 0, m33 := (292363 : Rat)/113930 } }, last_frame := 0, state_estimates := [{ x := 0, y := 0, vx := 0, vy := 0 }, { x := 0, y := 0, vx := 0, vy := 0 }], covariance_estimates := [{ m00 := (1 : Rat)/110, m01 := 0, m02 := 0, m03 := 0, m10 := 0, m11 := (1 : Rat)/110, m12 := 0, m13 := 0, m20 := 0, m21 := 0, m22 := (1 : Rat)/10, m23 := 0, m30 := 0, m31 := 0, m32 := 0, m33 := (1 : Rat)/10 }, { m00 := (568 : Rat)/56965, m01 := 0, m02 := (1683 : Rat)/113930, m03 := 0, m10 := 0, m11 := (568 : Rat)/56965, m12 := 0, m13 := (1683 : Rat)/113930, m20 := (1683 : Rat)/113930, m21 := 0, m22 := (292363 : Rat)/113930, m23 := 0, m30 := 0, m31 := (1683 : Rat)/113930, m32 := 0, m33 := (292363 : Rat)/113930 }], observations := [some { x := 0, y := 0 }, some { x := 0, y := 0 }], frames := [0, 1], last_observation_frame := 1 }], next_obj_id := 1, Ainv := { m00 := 1, m01 := 0, m02 := 0, m10 := 0, m11 := 1, m12 := 0, m20 := 0, m21 := 0, m22 := 1 }, output := [] }

/-- The tracker state reached at this stage of the concrete runs (printed
literal; see the staged evaluation lemmas below). -/
def trA2lit : Tracker :=
  { dt := 1, objects := [{ dt := 1, obj_id := 0, kfilt := { A := { m00 := 1, m01 := 0, m02 := 1, m03 := 0, m10 := 0, m11 := 1, m12 := 0, m13 := 1, m20 := 0, m21 := 0, m22 := 1, m23 := 0, m30 := 0, m31 := 0, m32 := 0, m33 := 1 }, C := { m00 := 1, m01 := 0, m02 := 0, m03 := 0, m10 := 0, m11 := 1, m12 := 0, m13 := 0 }, Q := { m00 := (10 : Rat)/3, m01 := 0, m02 := 5, m03 := 0, m10 := 0, m11 := (10 : Rat)/3, m12 := 0, m13 := 5, m20 := 5, m21 := 0, m22 := 10, m23 := 0, m30 := 0, m31 := 5, m32 := 0, m33 := 10 }, R := { m00 := (1 : Rat)/100, m01 := 0, m10 := 0, m11 := (1 : Rat)/100 }, xhat := { x := 0, y := 0, vx := 0, vy := 0 }, P := { m00 := (405979 : Rat)/68358, m01 := 0, m02 := (431848 : Rat)/56965, m03 := 0, m10 := 0, m11 := (405979 : Rat)/68358, m12 := 0, m13 := (431848 : Rat)/56965, m20 := (431848 : Rat)/56965, m21 := 0, m22 := (1431663 : Rat)/113930, m23 := 0, m30 := 0, m31 := (431848 : Rat)/56965, m32 := 0, m33 := (1431663 : Rat)/113930 } }, last_frame := 2, state_estimates := [{ x := 0, y := 0, vx := 0, vy := 0 }, { x := 0, y := 0, vx := 0, vy := 0 }, { x := 0, y := 0, vx := 0, vy := 0 }], covariance_estimates := [{ m00 := (1 : Rat)/110, m01 := 0, m02 := 0, m03 := 0, m10 := 0, m11 := (1 : Rat)/110, m12 := 0, m13 := 0, m20 := 0, m21 := 0, m22 := (1 : Rat)/10, m23 := 0, m30 := 0, m31 := 0, m32 := 0, m33 := (1 : Rat)/10 }, { m00 := (568 : Rat)/56965, m01 := 0, m02 := (1683 : Rat)/113930, m03 := 0, m10 := 0, m11 := (568 : Rat)/56965, m12 := 0, m13 := (1683 : Rat)/113930, m20 := (1683 : Rat)/113930, m21 := 0, m22 := (292363 : Rat)/113930, m23 := 0, m30 := 0, m31 := (1683 : Rat)/113930, m32 := 0, m33 := (292363 : Rat)/113930 }, { m00 := (405979 : Rat)/68358, m01 := 0, m02 := (431848 : Rat)/56965, m03 := 0, m10 := 0, m11 := (405979 : Rat)/68358, m12 := 0, m13 := (431848 : Rat)/56965, m20 := (431848 : Rat)/56965, m21 := 0, m22 := (1431663 : Rat)/113930, m23 := 0, m30 := 0, m31 := (431848 : Rat)/56965, m32 := 0, m33 := (1431663 : Rat)/113930 }], observations := [some { x := 0, y := 0 }, some { x := 0, y := 0 }, none], frames := [0, 1, 1], last_observation_frame := 1 }], next_obj_id := 1, Ainv := { m00 := 1, m01 := 0, m02 := 0, m10 := 0, m11 := 1, m12 := 0, m20 := 0, m21 := 0, m22 := 1 }, output := [] }

/-- The tracker state reached at this stage of the concrete runs (printed
literal; see the staged evaluation lemmas below). -/
def trC1lit : Tracker :=
  { dt := 1, objects := [{ dt := 1, obj_id := 0, kfilt := { A := { m00 := 1, m01 := 0, m02 := 1, m03 := 0, m10 := 0, m11 := 1, m12 := 0, m13 := 1, m20 := 0, m21 := 0, m22 := 1, m23 := 0, m30 := 0, m31 := 0, m32 := 0, m33 := 1 }, C := { m00 := 1, m01 := 0, m02 := 0, m03 := 0, m10 := 0, m11 := 1, m12 := 0, m13 := 0 }, Q := { m00 := (10 : Rat)/3, m01 := 0, m02 := 5, m03 := 0, m10 := 0, m11 := (10 : Rat)/3, m12 := 0, m13 := 5, m20 := 5, m21 := 0, m22 := 10, m23 := 0, m30 := 0, m31 := 5, m32 := 0, m33 := 10 }, R := { m00 := (1 : Rat)/100, m01 := 0, m10 := 0, m11 := (1 : Rat)/100 }, xhat := { x := 0, y := 0, vx := 0, vy := 0 }, P := { m00 := (568 : Rat)/56965, m01 := 0, m02 := (1683 : Rat)/113930, m03 := 0, m10 := 0, m11 := (568 : Rat)/56965, m12 := 0, m13 := (1683 : Rat)/113930, m20 := (1683 : Rat)/113930, m21 := 0, m22 := (292363 : Rat)/113930, m23 := 0, m30 := 0, m31 := (1683 : Rat)/113930, m32 := 0, m33 := (292363 : Rat)/113930 } }, last_frame := 0, state_estimates := [{ x := 0, y := 0, vx := 0, vy := 0 }, { x := 0, y := 0, vx := 0, vy := 0 }], covariance_estimates := [{ m00 := (1 : Rat)/110, m01 := 0, m02 := 0, m03 := 0, m10 := 0, m11 := (1 : Rat)/110, m12 := 0, m13 := 0, m20 := 0, m21 := 0, m22 := (1 : Rat)/10, m23 := 0, m30 := 0, m31 := 0, m32 := 0, m33 := (1 : Rat)/10 }, { m00 := (568 : Rat)/56965, m01 := 0, m02 := (1683 : Rat)/113930, m03 := 0, m10 := 0, m11 := (568 : Rat)/56965, m12 := 0, m13 := (1683 : Rat)/113930, m20 := (1683 : Rat)/113930, m21 := 0, m22 := (292363 : Rat)/113930, m23 := 0, m30 := 0, m31 := (1683 : Rat)/113930, m32 := 0, m33 := (292363 : Rat)/113930 }], observations := [some { x := 0, y := 0 }, some { x := 0, y := 0 }], frames := [0, 1], last_observation_frame := 1 }], next_obj_id := 1, Ainv := { m00 := 1, m01 := 0, m02 := 0, m10 := 0, m11 := 1, m12 := 0, m20 := 0, m21 := 0, m22 := 1 }, output := [] }

/-- The tracker state reached at this stage of the concrete runs (printed
literal; see the staged evaluation lemmas below). -/
def trD0lit : Tracker :=
  { dt := 1, objects := [{ dt := 1, obj_id := 0, kfilt := { A := { m00 := 1, m01 := 0, m02 := 1, m03 := 0, m10 := 0, m11 := 1, m12 := 0, m13 := 1, m20 := 0, m21 := 0, m22 := 1, m23 := 0, m30 := 0, m31 := 0, m32 := 0, m33 := 1 }, C := { m00 := 1, m01 := 0, m02 := 0, m03 := 0, m10 := 0, m11 := 1, m12 := 0, m13 := 0 }, Q := { m00 := (10 : Rat)/3, m01 := 0, m02 := 5, m03 := 0, m10 := 0, m11 := (10 : Rat)/3, m12 := 0, m13 := 5, m20 := 5, m21 := 0, m22 := 10, m23 := 0, m30 := 0, m31 := 5, m32 := 0, m33 := 10 }, R := { m00 := (1 : Rat)/100, m01 := 0, m10 := 0, m11 := (1 : Rat)/100 }, xhat := { x := 1, y := 0, vx := 0, vy := 0 }, P := { m00 := (1 : Rat)/110, m01 := 0, m02 := 0, m03 := 0, m10 := 0, m11 := (1 : Rat)/110, m12 := 0, m13 := 0, m20 := 0, m21 := 0, m22 := (1 : Rat)/10, m23 := 0, m30 := 0, m31 := 0, m32 := 0, m33 := (1 : Rat)/10 } }, last_frame := 0, state_estimates := [{ x := 1, y := 0, vx := 0, vy := 0 }], covariance_estimates := [{ m00 := (1 : Rat)/110, m01 := 0, m02 := 0, m03 := 0, m10 := 0, m11 := (1 : Rat)/110, m12 := 0, m13 := 0, m20 := 0, m21 := 0, m22 := (1 : Rat)/10, m23 := 0, m30 := 0, m31 := 0, m32 := 0, m33 := (1 : Rat)/10 }], observations := [some { x := 1, y := 0 }], frames := [0], last_observation_frame := 0 }, { dt := 1, obj_id := 1, kfilt := { A := { m00 := 1, m01 := 0, m02 := 1, m03 := 0, m10 := 0, m11 := 1, m12 := 0, m13 := 1, m20 := 0, m21 := 0, m22 := 1, m23 := 0, m30 := 0, m31 := 0, m32 := 0, m33 := 1 }, C := { m00 := 1, m01 := 0, m02 := 0, m03 := 0, m10 := 0, m11 := 1, m12 := 0, m13 := 0 }, Q := { m00 := (10 : Rat)/3, m01 := 0, m02 := 5, m03 := 0, m10 := 0, m11 := (10 : Rat)/3, m12 := 0, m13 := 5, m20 := 5, m21 := 0, m22 := 10, m23 := 0, m30 := 0, m31 := 5, m32 := 0, m33 := 10 }, R := { m00 := (1 : Rat)/100, m01 := 0, m10 := 0, m11 := (1 : Rat)/100 }, xhat := { x := 0, y := 0, vx := 0, vy := 0 }, P := { m00 := (1 : Rat)/110, m01 := 0, m02 := 0, m03 := 0, m10 := 0, m11 := (1 : Rat)/110, m12 := 0, m13 := 0, m20 := 0, m21 := 0, m22 := (1 : Rat)/10, m23 := 0, m30 := 0, m31 := 0, m32 := 0, m33 := (1 : Rat)/10 } }, last_frame := 0, state_estimates := [{ x := 0, y := 0, vx := 0, vy := 0 }], covariance_estimates := [{ m00 := (1 : Rat)/110, m01 := 0, m02 := 0, m03 := 0, m10 := 0, m11 := (1 : Rat)/110, m12 := 0, m13 := 0, m20 := 0, m21 := 0, m22 := (1 : Rat)/10, m23 := 0, m30 := 0, m31 := 0, m32 := 0, m33 := (1 : Rat)/10 }], observations := [some { x := 0, y := 0 }], frames := [0], last_observation_frame := 0 }], next_obj_id := 2, Ainv := { m00 := 1, m01 := 0, m02 := 0, m10 := 0, m11 := 1, m12 := 0, m20 := 0, m21 := 0, m22 := 1 }, output := [] }

/-- The tracker state reached at this stage of the concrete runs (printed
literal; see the staged evaluation lemmas below). -/
def trD1lit : Tracker :=
  { dt := 1, objects := [{ dt := 1, obj_id := 1, kfilt := { A := { m00 := 1, m01 := 0, m02 := 1, m03 := 0, m10 := 0, m11 := 1, m12 := 0, m13 := 1, m20 := 0, m21 := 0, m22 := 1, m23 := 0, m30 := 0, m31 := 0, m32 := 0, m33 := 1 }, C := { m00 := 1, m01 := 0, m02 := 0, m03 := 0, m10 := 0, m11 := 1, m12 := 0, m13 := 0 }, Q := { m00 := (10 : Rat)/3, m01 := 0, m02 := 5, m03 := 0, m10 := 0, m11 := (10 : Rat)/3, m12 := 0, m13 := 5, m20 := 5, m21 := 0, m22 := 10, m23 := 0, m30 := 0, m31 := 5, m32 := 0, m33 := 10 }, R := { m00 := (1 : Rat)/100, m01 := 0, m10 := 0, m11 := (1 : Rat)/100 }, xhat := { x := 0, y := 0, vx := 0, vy := 0 }, P := { m00 := (1 : Rat)/110, m01 := 0, m02 := 0, m03 := 0, m10 := 0, m11 := (1 : Rat)/110, m12 := 0, m13 := 0, m20 := 0, m21 := 0, m22 := (1 : Rat)/10, m23 := 0, m30 := 0, m31 := 0, m32 := 0, m33 := (1 : Rat)/10 } }, last_frame := 0, state_estimates := [{ x := 0, y := 0, vx := 0, vy := 0 }], covariance_estimates := [{ m00 := (1 : Rat)/110, m01 := 0, m02 := 0, m03 := 0, m10 := 0, m11 := (1 : Rat)/110, m12 := 0, m13 := 0, m20 := 0, m21 := 0, m22 := (1 : Rat)/10, m23 := 0, m30 := 0, m31 := 0, m32 := 0, m33 := (1 : Rat)/10 }], observations := [some { x := 0, y := 0 }], frames := [0], last_observation_frame := 0 }, { dt := 1, obj_id := 0, kfilt := { A := { m00 := 1, m01 := 0, m02 := 1, m03 := 0, m10 := 0, m11 := 1, m12 := 0, m13 := 1, m20 := 0, m21 := 0, m22 := 1, m23 := 0, m30 := 0, m31 := 0, m32 := 0, m33 := 1 }, C := { m00 := 1, m01 := 0, m02 := 0, m03 := 0, m10 := 0, m11 := 1, m12 := 0, m13 := 0 }, Q := { m00 := (10 : Rat)/3, m01 := 0, m02 := 5, m03 := 0, m10 := 0, m11 := (10 : Rat)/3, m12 := 0, m13 := 5, m20 := 5, m21 := 0, m22 := 10, m23 := 0, m30 := 0, m31 := 5, m32 := 0, m33 := 10 }, R := { m00 := (1 : Rat)/100, m01 := 0, m10 := 0, m11 := (1 : Rat)/100 }, xhat := { x := 1, y := 0, vx := 0, vy := 0 }, P := { m00 := (1 : Rat)/110, m01 := 0, m02 := 0, m03 := 0, m10 := 0, m11 := (1 : Rat)/110, m12 := 0, m13 := 0, m20 := 0, m21 := 0, m22 := (1 : Rat)/10, m23 := 0, m30 := 0, m31 := 0, m32 := 0, m33 := (1 : Rat)/10 } }, last_frame := 0, state_estimates := [{ x := 1, y := 0, vx := 0, vy := 0 }], covariance_estimates := [{ m00 := (1 : Rat)/110, m01 := 0, m02 := 0, m03 := 0, m10 := 0, m11 := (1 : Rat)/110, m12 := 0, m13 := 0, m20 := 0, m21 := 0, m22 := (1 : Rat)/10, m23 := 0, m30 := 0, m31 := 0, m32 := 0, m33 := (1 : Rat)/10 }], observations := [some { x := 1, y := 0 }], frames := [0], last_observation_frame := 0 }], next_obj_id := 2, Ainv := { m00 := 1, m01 := 0, m02 := 0, m10 := 0, m11 := 1, m12 := 0, m20 := 0, m21 := 0, m22 := 1 }, output := [] }

/-- The tracker state reached at this stage of the concrete runs (printed
literal; see the staged evaluation lemmas below). -/
def trE0lit : Tracker :=
  { dt := (3 : Rat)/200, objects := [{ dt := (3 : Rat)/200, obj_id := 0, kfilt := { A := { m00 := 1, m01 := 0, m02 := (3 : Rat)/200, m03 := 0, m10 := 0, m11 := 1, m12 := 0, m13 := (3 : Rat)/200, m20 := 0, m21 := 0, m22 := 1, m23 := 0, m30 := 0, m31 := 0, m32 := 0, m33 := 1 }, C := { m00 := 1, m01 := 0, m02 := 0, m03 := 0, m10 := 0, m11 := 1, m12 := 0, m13 := 0 }, Q := { m00 := (9 : Rat)/800000, m01 := 0, m02 := (9 : Rat)/8000, m03 := 0, m10 := 0, m11 := (9 : Rat)/800000, m12 := 0, m13 := (9 : Rat)/8000, m20 := (9 : Rat)/8000, m21 := 0, m22 := (3 : Rat)/20, m23 := 0, m30 := 0, m31 := (9 : Rat)/8000, m32 := 0, m33 := (3 : Rat)/20 }, R := { m00 := (1 : Rat)/100, m01 := 0, m10 := 0, m11 := (1 : Rat)/100 }, xhat := { x := 0, y := 0, vx := 0, vy := 0 }, P := { m00 := (1 : Rat)/110, m01 := 0, m02 := 0, m03 := 0, m10 := 0, m11 := (1 : Rat)/110, m12 := 0, m13 := 0, m20 := 0, m21 := 0, m22 := (1 : Rat)/10, m23 := 0, m30 := 0, m31 := 0, m32 := 0, m33 := (1 : Rat)/10 } }, last_frame := 0, state_estimates := [{ x := 0, y := 0, vx := 0, vy := 0 }], covariance_estimates := [{ m00 := (1 : Rat)/110, m01 := 0, m02 := 0, m03 := 0, m10 := 0, m11 := (1 : Rat)/110, m12 := 0, m13 := 0, m20 := 0, m21 := 0, m22 := (1 : Rat)/10, m23 := 0, m30 := 0, m31 := 0, m32 := 0, m33 := (1 : Rat)/10 }], observations := [some { x := 0, y := 0 }], frames := [0], last_observation_frame := 0 }], next_obj_id := 1, Ainv := { m00 := 1, m01 := 0, m02 := 0, m10 := 0, m11 := 1, m12 := 0, m20 := 0, m21 := 0, m22 := 1 }, output := [] }

/-- The tracker state reached at this stage of the concrete runs (printed
literal; see the staged evaluation lemmas below). -/
def trE1lit : Tracker :=
  { dt := (3 : Rat)/200, objects := [{ dt := (3 : Rat)/200, obj_id := 0, kfilt := { A := { m00 := 1, m01 := 0, m02 := (3 : Rat)/200, m03 := 0, m10 := 0, m11 := 1, m12 := 0, m13 := (3 : Rat)/200, m20 := 0, m21 := 0, m22 := 1, m23 := 0, m30 := 0, m31 := 0, m32 := 0, m33 := 1 }, C := { m00 := 1, m01 := 0, m02 := 0, m03 := 0, m10 := 0, m11 := 1, m12 := 0, m13 := 0 }, Q := { m00 := (9 : Rat)/800000, m01 := 0, m02 := (9 : Rat)/8000, m03 := 0, m10 := 0, m11 := (9 : Rat)/800000, m12 := 0, m13 := (9 : Rat)/8000, m20 := (9 : Rat)/8000, m21 := 0, m22 := (3 : Rat)/20, m23 := 0, m30 := 0, m31 := (9 : Rat)/8000, m32 := 0, m33 := (3 : Rat)/20 }, R := { m00 := (1 : Rat)/100, m01 := 0, m10 := 0, m11 := (1 : Rat)/100 }, xhat := { x := 0, y := 0, vx := 0, vy := 0 }, P := { m00 := (80297 : Rat)/16829700, m01 := 0, m02 := (77 : Rat)/56099, m03 := 0, m10 := 0, m11 := (80297 : Rat)/16829700, m12 := 0, m13 := (77 : Rat)/56099, m20 := (77 : Rat)/56099, m21 := 0, m22 := (1120363 : Rat)/4487920, m23 := 0, m30 := 0, m31 := (77 : Rat)/56099, m32 := 0, m33 := (1120363 : Rat)/4487920 } }, last_frame := 0, state_estimates := [{ x := 0, y := 0, vx := 0, vy := 0 }, { x := 0, y := 0, vx := 0, vy := 0 }], covariance_estimates := [{ m00 := (1 : Rat)/110, m01 := 0, m02 := 0, m03 := 0, m10 := 0, m11 := (1 : Rat)/110, m12 := 0, m13 := 0, m20 := 0, m21 := 0, m22 := (1 : Rat)/10, m23 := 0, m30 := 0, m31 := 0, m32 := 0, m33 := (1 : Rat)/10 }, { m00 := (80297 : Rat)/16829700, m01 := 0, m02 := (77 : Rat)/56099, m03 := 0, m10 := 0, m11 := (80297 : Rat)/16829700, m12 := 0, m13 := (77 : Rat)/56099, m20 := (77 : Rat)/56099, m21 := 0, m22 := (1120363 : Rat)/4487920, m23 := 0, m30 := 0, m31 := (77 : Rat)/56099, m32 := 0, m33 := (1120363 : Rat)/4487920 }], observations := [some { x := 0, y := 0 }, some { x := 0, y := 0 }], frames := [0, 1], last_observation_frame := 1 }], next_obj_id := 1, Ainv := { m00 := 1, m01 := 0, m02 := 0, m10 := 0, m11 := 1, m12 := 0, m20 := 0, m21 := 0, m22 := 1 }, output := [] }


/-!
Staged evaluation of the concrete runs.
-/

set_option maxHeartbeats 2000000 in
/-- Evaluation of one `handle_frame_data` call of the concrete runs. -/
lemma stage_trA0 : handle_frame_data (initTracker 1 id3) 0 [⟨0, 0⟩] = trA0lit := by
  norm_num [trA0lit, handle_frame_data, initTracker, association_pass,
    births, birth_loop, handle_birth, data_association_and_kalman_update,
    replay_missing, intRange, associate, dist_sq, sqrt_leB, sqrt_gtB,
    TrackedObject.check_done, covar_scalar_sq, max_position_covarance,
    data_association_distance_threshold_meters, id3,
    KalmanFilter.step, KalmanFilter.step1, KalmanFilter.step2,
    motion_model, motion_noise_covariance, observation_model,
    observation_noise_covariance, initial_covariance,
    mat2Add, mat2Inv, mat24MulMat4, mat24MulMat42, mat24Transpose,
    mat4MulMat42, mat42MulMat2, mat42MulMat24, mat24MulVec4, mat42MulVec2,
    mat4Mul, mat4Add, mat4Sub, mat4Transpose, mat4MulVec, mat4Identity,
    vec2Sub, vec4Add, List.getLast?]

set_option maxHeartbeats 2000000 in
/-- Evaluation of one `handle_frame_data` call of the concrete runs. -/
lemma stage_trA1 : handle_frame_data trA0lit 1 [⟨0, 0⟩] = trA1lit := by
  norm_num [trA0lit, trA1lit, handle_frame_data, initTracker, association_pass,
    births, birth_loop, handle_birth, data_association_and_kalman_update,
    replay_missing, intRange, associate, dist_sq, sqrt_leB, sqrt_gtB,
    TrackedObject.check_done, covar_scalar_sq, max_position_covarance,
    data_association_distance_threshold_meters, id3,
    KalmanFilter.step, KalmanFilter.step1, KalmanFilter.step2,
    motion_model, motion_noise_covariance, observation_model,
    observation_noise_covariance, initial_covariance,
    mat2Add, mat2Inv, mat24MulMat4, mat24MulMat42, mat24Transpose,
    mat4MulMat42, mat42MulMat2, mat42MulMat24, mat24MulVec4, mat42MulVec2,
    mat4Mul, mat4Add, mat4Sub, mat4Transpose, mat4MulVec, mat4Identity,
    vec2Sub, vec4Add, List.getLast?]

set_option maxHeartbeats 2000000 in
/-- Evaluation of one `handle_frame_data` call of the concrete runs. -/
lemma stage_trA2 : handle_frame_data trA1lit 2 [] = trA2lit := by
  norm_num [trA1lit, trA2lit, handle_frame_data, initTracker, association_pass,
    births, birth_loop, handle_birth, data_association_and_kalman_update,
    replay_missing, intRange, associate, dist_sq, sqrt_leB, sqrt_gtB,
    TrackedObject.check_done, covar_scalar_sq, max_position_covarance,
    data_association_distance_threshold_meters, id3,
    KalmanFilter.step, KalmanFilter.step1, KalmanFilter.step2,
    motion_model, motion_noise_covariance, observation_model,
    observation_noise_covariance, initial_covariance,
    mat2Add, mat2Inv, mat24MulMat4, mat24MulMat42, mat24Transpose,
    mat4MulMat42, mat42MulMat2, mat42MulMat24, mat24MulVec4, mat42MulVec2,
    mat4Mul, mat4Add, mat4Sub, mat4Transpose, mat4MulVec, mat4Identity,
    vec2Sub, vec4Add, List.getLast?]

set_option maxHeartbeats 2000000 in
/-- Evaluation of one `handle_frame_data` call of the concrete runs. -/
lemma stage_trC1 : handle_frame_data trA0lit 1 [⟨0, 0⟩, ⟨1, 0⟩] = trC1lit := by
  norm_num [trA0lit, trC1lit, handle_frame_data, initTracker, association_pass,
    births, birth_loop, handle_birth, data_association_and_kalman_update,
    replay_missing, intRange, associate, dist_sq, sqrt_leB, sqrt_gtB,
    TrackedObject.check_done, covar_scalar_sq, max_position_covarance,
    data_association_distance_threshold_meters, id3,
    KalmanFilter.step, KalmanFilter.step1, KalmanFilter.step2,
    motion_model, motion_noise_covariance, observation_model,
    observation_noise_covariance, initial_covariance,
    mat2Add, mat2Inv, mat24MulMat4, mat24MulMat42, mat24Transpose,
    mat4MulMat42, mat42MulMat2, mat42MulMat24, mat24MulVec4, mat42MulVec2,
    mat4Mul, mat4Add, mat4Sub, mat4Transpose, mat4MulVec, mat4Identity,
    vec2Sub, vec4Add, List.getLast?]

set_option maxHeartbeats 2000000 in
/-- Evaluation of one `handle_frame_data` call of the concrete runs. -/
lemma stage_trD0 : handle_frame_data (initTracker 1 id3) 0 [⟨0, 0⟩, ⟨1, 0⟩] = trD0lit := by
  norm_num [trD0lit, handle_frame_data, initTracker, association_pass,
    births, birth_loop, handle_birth, data_association_and_kalman_update,
    replay_missing, intRange, associate, dist_sq, sqrt_leB, sqrt_gtB,
    TrackedObject.check_done, covar_scalar_sq, max_position_covarance,
    data_association_distance_threshold_meters, id3,
    KalmanFilter.step, KalmanFilter.step1, KalmanFilter.step2,
    motion_model, motion_noise_covariance, observation_model,
    observation_noise_covariance, initial_covariance,
    mat2Add, mat2Inv, mat24MulMat4, mat24MulMat42, mat24Transpose,
    mat4MulMat42, mat42MulMat2, mat42MulMat24, mat24MulVec4, mat42MulVec2,
    mat4Mul, mat4Add, mat4Sub, mat4Transpose, mat4MulVec, mat4Identity,
    vec2Sub, vec4Add, List.getLast?]

set_option maxHeartbeats 2000000 in
/-- Evaluation of one `handle_frame_data` call of the concrete runs. -/
lemma stage_trD1 : handle_frame_data trD0lit 1 [] = trD1lit := by
  norm_num [trD0lit, trD1lit, handle_frame_data, initTracker, association_pass,
    births, birth_loop, handle_birth, data_association_and_kalman_update,
    replay_missing, intRange, associate, dist_sq, sqrt_leB, sqrt_gtB,
    TrackedObject.check_done, covar_scalar_sq, max_position_covarance,
    data_association_distance_threshold_meters, id3,
    KalmanFilter.step, KalmanFilter.step1, KalmanFilter.step2,
    motion_model, motion_noise_covariance, observation_model,
    observation_noise_covariance, initial_covariance,
    mat2Add, mat2Inv, mat24MulMat4, mat24MulMat42, mat24Transpose,
    mat4MulMat42, mat42MulMat2, mat42MulMat24, mat24MulVec4, mat42MulVec2,
    mat4Mul, mat4Add, mat4Sub, mat4Transpose, mat4MulVec, mat4Identity,
    vec2Sub, vec4Add, List.getLast?]

set_option maxHeartbeats 2000000 in
/-- Evaluation of one `handle_frame_data` call of the concrete runs. -/
lemma stage_trE0 : handle_frame_data (initTracker (3/200) id3) 0 [⟨0, 0⟩] = trE0lit := by
  norm_num [trE0lit, handle_frame_data, initTracker, association_pass,
    births, birth_loop, handle_birth, data_association_and_kalman_update,
    replay_missing, intRange, associate, dist_sq, sqrt_leB, sqrt_gtB,
    TrackedObject.check_done, covar_scalar_sq, max_position_covarance,
    data_association_distance_threshold_meters, id3,
    KalmanFilter.step, KalmanFilter.step1, KalmanFilter.step2,
    motion_model, motion_noise_covariance, observation_model,
    observation_noise_covariance, initial_covariance,
    mat2Add, mat2Inv, mat24MulMat4, mat24MulMat42, mat24Transpose,
    mat4MulMat42, mat42MulMat2, mat42MulMat24, mat24MulVec4, mat42MulVec2,
    mat4Mul, mat4Add, mat4Sub, mat4Transpose, mat4MulVec, mat4Identity,
    vec2Sub, vec4Add, List.getLast?]

set_option maxHeartbeats 2000000 in
/-- Evaluation of one call of the concrete runs (run E, second frame). -/
lemma stage_trE1 : handle_frame_data trE0lit 1 [⟨0, 0⟩] = trE1lit := by
  norm_num [trE0lit, trE1lit, handle_frame_data, initTracker, association_pass,
    births, birth_loop, handle_birth, data_association_and_kalman_update,
    replay_missing, intRange, associate, dist_sq, sqrt_leB, sqrt_gtB,
    TrackedObject.check_done, covar_scalar_sq, max_position_covarance,
    data_association_distance_threshold_meters, id3,
    KalmanFilter.step, KalmanFilter.step1, KalmanFilter.step2,
    motion_model, motion_noise_covariance, observation_model,
    observation_noise_covariance, initial_covariance,
    mat2Add, mat2Inv, mat24MulMat4, mat24MulMat42, mat24Transpose,
    mat4MulMat42, mat42MulMat2, mat42MulMat24, mat24MulVec4, mat42MulVec2,
    mat4Mul, mat4Add, mat4Sub, mat4Transpose, mat4MulVec, mat4Identity,
    vec2Sub, vec4Add, List.getLast?]


/-!
Run-level evaluation: each concrete run equals its printed literal state.
-/

lemma runA0_eq : runA0 = trA0lit := by
  unfold runA0
  rw [stage_trA0]

lemma runA2_eq : runA2 = trA2lit := by
  unfold runA2 runA1 runA0
  rw [stage_trA0, stage_trA1, stage_trA2]

lemma runC1_eq : runC1 = trC1lit := by
  unfold runC1 runA0
  rw [stage_trA0, stage_trC1]

lemma runD0_eq : runD0 = trD0lit := by
  unfold runD0
  rw [stage_trD0]

lemma runD1_eq : runD1 = trD1lit := by
  unfold runD1 runD0
  rw [stage_trD0, stage_trD1]

lemma runE0_eq : runE0 = trE0lit := by
  unfold runE0
  rw [stage_trE0]

lemma runE1_eq : runE1 = trE1lit := by
  unfold runE1 runE0
  rw [stage_trE0, stage_trE1]

/-- C1: at finalization the motion gate is claimed to compare
`max(excursion_x, excursion_y)` against the 2 mm minimum, with
`np.max(x_excursion, y_excursion)` computing that maximum correctly.  It does
not: the second positional argument of `np.max` is the reduction axis, so the
y-span is ignored (see `np_max_scalar_axis`).  At the finalized object
`c1Obj` — constant `x`, `y` moving 10 mm, tiny covariances — the median
quality gate passes and the spec's excursion `max(0, 10 mm)` exceeds 2 mm, so
the claim persists the trajectory, yet the code writes nothing because its
excursion value is the x-span `0`. -/
theorem C1_motion_gate_ignores_y_span :
    save_data id3 c1Obj = [] ∧
    median_sqrt_leB
      ((trim_to_last_observation c1Obj).covariance_estimates.map covar_scalar_sq)
      (median_covar_scalar_threshold c1Obj.dt) = true ∧
    minimum_excursion_distance <
      spec_excursion_distance
        (list_max ((trim_to_last_observation c1Obj).state_estimates.map (fun s => s.x)) -
         list_min ((trim_to_last_observation c1Obj).state_estimates.map (fun s => s.x)))
        (list_max ((trim_to_last_observation c1Obj).state_estimates.map (fun s => s.y)) -
         list_min ((trim_to_last_observation c1Obj).state_estimates.map (fun s => s.y))) := by
  norm_num [save_data, trim_to_last_observation, c1Obj, small_cov,
    median_sqrt_leB, sqrt_avg_leB, sqrt_leB, covar_scalar_sq,
    median_covar_scalar_threshold, minimum_excursion_distance,
    spec_excursion_distance, np_max_scalar_axis, list_max, list_min,
    List.findIdx, List.findIdx.go, List.mergeSort]

/-- C2 counterexample: in run C one live object (born from `(0,0)` at frame
0) is offered the observations `[(0,0), (1,0)]` at frame 1.  It claims
`(0,0)` and the scan `break`s, dropping `(1,0)` from the unclaimed list:
after the frame there is still exactly one object (id 0, whose history
contains only `(0,0)` observations) and `next_obj_id` is still 1 — the
unclaimed-by-anyone observation `(1,0)` spawned nothing, contradicting the
claim that every observation not claimed by any live object spawns exactly
one new object. -/
theorem C2_counterexample_dropped_observation_spawns_nothing :
    runC1.objects.map (fun t => t.obj_id) = [0] ∧
    runC1.next_obj_id = 1 ∧
    runC1.objects.map (fun t => t.observations) = [[some ⟨0, 0⟩, some ⟨0, 0⟩]] := by
  rw [runC1_eq]
  norm_num [trC1lit]

/-- C3: in run A the object is born at frame 0 and claims an observation at
frame 1, so at frame 2 its last processed frame is `f - 1 = 1` and the claim
says it gets no coasting replay step.  The code still replays frame 1
(`self.last_frame` is updated only at birth and inside the replay loop — and
there to the current frame, not to each missing frame — so it is stale),
appending a duplicate coasting entry for the already-processed frame 1: the
history after frame 2 is `frames = [0, 1, 1]` with observations
`[(0,0), (0,0), nan]`. -/
theorem C3_spurious_replay_of_processed_frame :
    runA2.objects.map (fun t => t.frames) = [[0, 1, 1]] ∧
    runA2.objects.map (fun t => t.observations) =
      [[some ⟨0, 0⟩, some ⟨0, 0⟩, none]] ∧
    runA2.objects.map (fun t => t.last_frame) = [2] := by
  rw [runA2_eq]
  norm_num [trA2lit]

/-- C4 counterexample: with `dt = 3/200` the birth-step posterior has
uncertainty scalar `sqrt(2)/110 ≈ 0.0129`, above the death threshold
`7500 dt^3 / 3 = 27/3200 ≈ 0.0084` — `check_done` already holds after frame
0 — yet the newborn is alive in the live set, because `handle_birth` performs
no death check.  After claiming another observation at frame 1 the metric
drops back below the threshold and the object remains alive: it is never
finalized at the moment the metric first exceeded the threshold,
contradicting the claimed exact transition. -/
theorem C4_counterexample_no_death_check_at_birth :
    runE0.objects.map (fun t => t.obj_id) = [0] ∧
    runE0.objects.map (fun t => t.check_done) = [true] ∧
    runE1.objects.map (fun t => t.obj_id) = [0] ∧
    runE1.objects.map (fun t => t.check_done) = [false] := by
  rw [runE0_eq, runE1_eq]
  norm_num [trE0lit, trE1lit, TrackedObject.check_done, covar_scalar_sq,
    sqrt_gtB, max_position_covarance, List.getLast?]

/-- C6 counterexample: in run A the finalized history is
`frames = [0, 1, 1]` with observations `[(0,0), (0,0), nan]` and
`_last_observation_frame = 1`.  The source's trim (cut at the first frame
number greater than 1) keeps all three entries, so the trimmed history still
ends with a trailing coast-only entry; the spec's trim (drop all trailing
coast-only entries, `spec_trimmed_observations`) would keep only two. -/
theorem C6_counterexample_trailing_coast_entry_survives_trim :
    runA2.objects.map (fun t => (trim_to_last_observation t).observations) =
      [[some ⟨0, 0⟩, some ⟨0, 0⟩, none]] ∧
    runA2.objects.map
        (fun t => spec_trimmed_observations (trim_to_last_observation t).observations) =
      [[some ⟨0, 0⟩, some ⟨0, 0⟩]] := by
  rw [runA2_eq]
  norm_num [trA2lit, trim_to_last_observation, spec_trimmed_observations,
    List.findIdx, List.findIdx.go, List.dropWhile]

/-- C7: in run A the four history arrays always have equal length (here 3,
3, 3, 3), but the frame numbers are `[0, 1, 1]` — nondecreasing yet NOT
strictly increasing, and with two entries for frame 1 — refuting the claimed
one-entry-per-frame strict ordering.  The duplicate entry is the spurious
replay of the stale-`last_frame` bug. -/
theorem C7_history_frames_not_strictly_increasing :
    runA2.objects.map
        (fun t => (t.frames.length, t.state_estimates.length,
          t.covariance_estimates.length, t.observations.length)) =
      [(3, 3, 3, 3)] ∧
    runA2.objects.map (fun t => t.frames) = [[0, 1, 1]] ∧
    ¬ List.Chain' (fun a b => a < b) [(0 : ℤ), 1, 1] ∧
    List.Chain' (fun a b => a ≤ b) [(0 : ℤ), 1, 1] := by
  refine ⟨?_, ?_, by simp [List.chain'_cons], by simp [List.chain'_cons]⟩ <;>
  · rw [runA2_eq]
    norm_num [trA2lit]

/-- C8 counterexample: at frame 0 two objects are born (ids 0 and 1, id 1
created last).  The pop loop visits the stored list from its end, so at
frame 1 the processing order is `[1, 0]` — last-created-first — but the
survivors are re-appended in pop order, so at frame 2 the order would be
`[0, 1]`: the first object processed is now the FIRST-created one, and the
order is not the same on every frame, contradicting the claimed consistent
last-created-first order. -/
theorem C8_counterexample_processing_order_reverses :
    processing_order runD0 = [1, 0] ∧
    processing_order runD1 = [0, 1] ∧
    runD1.next_obj_id = 2 := by
  rw [runD0_eq, runD1_eq]
  norm_num [trD0lit, trD1lit, processing_order]


/-!
General structural lemmas and theorems.
-/

/-- When the replay loop reports early finalization, the death condition
holds of the object it returns (its last covariance is the one that fired
the check). -/
lemma replay_missing_done_check (f : ℤ) :
    ∀ (l : List ℤ) (t : TrackedObject),
      (replay_missing f t l).2 = true → (replay_missing f t l).1.check_done = true := by
  intro l
  induction l with
  | nil => intro t h; simp [replay_missing] at h
  | cons m rest ih =>
    intro t h
    simp only [replay_missing] at h ⊢
    split at h
    next hc => rw [if_pos hc]; exact hc
    next hc => rw [if_neg hc]; exact ih _ h

/-- C4 amended: an object is reported finalized by
`data_association_and_kalman_update` (mid-stream death) exactly when the
death condition — the uncertainty scalar of its latest stored covariance
exceeding `7500 dt³/3` — holds of the object as returned: the check runs
after each replayed coasting step and once after the association scan, but
not at birth (see the counterexample for a newborn that already exceeds the
threshold and is nevertheless alive). -/
theorem C4_amended_done_iff_death_condition (f : ℤ) (t : TrackedObject)
    (u : List Vec2) :
    (data_association_and_kalman_update f t u).2.2 =
      (data_association_and_kalman_update f t u).1.check_done := by
  simp only [data_association_and_kalman_update]
  split
  next h => exact (replay_missing_done_check f _ t h).symm
  next h => rfl

/-- C9: the tracker is a deterministic function of its input: two runs over
equal ordered observation streams with the same `dt` and transform produce
the same final state and, in particular, the same sequence of output
records.  The source iterates only over Python lists (`self._objects`,
`observations`), never over unordered containers, which the list-based
embedding reflects. -/
theorem C9_run_deterministic (dt : ℚ) (Ainv : Mat3)
    (s1 s2 : List (ℤ × List Vec2)) (h : s1 = s2) :
    runTracker dt Ainv s1 = runTracker dt Ainv s2 ∧
    (runTracker dt Ainv s1).output = (runTracker dt Ainv s2).output := by
  subst h
  exact ⟨rfl, rfl⟩

/-- Witness for C9 at a concrete one-frame stream. -/
theorem C9_witness :
    ([((0 : ℤ), [(⟨0, 0⟩ : Vec2)])] = [((0 : ℤ), [(⟨0, 0⟩ : Vec2)])]) ∧
    runTracker 1 id3 [(0, [⟨0, 0⟩])] = runTracker 1 id3 [(0, [⟨0, 0⟩])] :=
  ⟨rfl, (C9_run_deterministic 1 id3 [(0, [⟨0, 0⟩])] [(0, [⟨0, 0⟩])] rfl).1⟩

/-- C10: when `handle_frame_data` is called with a frame that is not a
Python `int` (a NumPy integer, a float, ...), the `assert type(frame)==int`
on its first line raises before any association, update, finalization or
birth, and the tracker state is unchanged. -/
theorem C10_assert_rejects_non_int_frame (tr : Tracker) (frame : PyFrameVal)
    (obs : List Vec2) (h : frame.isPyInt = false) :
    handle_frame_data_checked tr frame obs = (true, tr) := by
  cases frame with
  | pyint n => simp [PyFrameVal.isPyInt] at h
  | npint n => rfl
  | pyfloat q => rfl

/-- Witness for C10 at a concrete float frame and fresh tracker. -/
theorem C10_witness :
    (PyFrameVal.isPyInt (.pyfloat (3/2)) = false) ∧
    handle_frame_data_checked (initTracker 1 id3) (.pyfloat (3/2)) [⟨0, 0⟩] =
      (true, initTracker 1 id3) :=
  ⟨rfl, C10_assert_rejects_non_int_frame (initTracker 1 id3) (.pyfloat (3/2))
    [⟨0, 0⟩] rfl⟩

/-- A newborn object carries its assigned id, birth frame, the single birth
observation, and — because the birth observation equals the position of the
filter's initial state, making the Kalman residual zero — the initial state
estimate `[obs_x, obs_y, 0, 0]` exactly. -/
lemma handle_birth_fields (dt : ℚ) (n : ℕ) (f : ℤ) (o : Vec2) :
    (handle_birth dt n f o).obj_id = n ∧
    (handle_birth dt n f o).state_estimates = [⟨o.x, o.y, 0, 0⟩] ∧
    (handle_birth dt n f o).frames = [f] ∧
    (handle_birth dt n f o).observations = [some o] := by
  refine ⟨rfl, ?_, rfl, rfl⟩
  simp only [handle_birth, KalmanFilter.step, KalmanFilter.step1,
    KalmanFilter.step2, observation_model, initial_covariance,
    observation_noise_covariance, mat2Add, mat2Inv, mat24MulMat4,
    mat24MulMat42, mat24Transpose, mat4MulMat42, mat42MulMat2, mat42MulMat24,
    mat24MulVec4, mat42MulVec2, mat4Mul, mat4Sub, mat4Identity, vec2Sub,
    vec4Add, if_true]
  simp only [List.cons.injEq, Vec4.mk.injEq, and_true]
  refine ⟨?_, ?_, ?_, ?_⟩ <;> ring

/-- The birth loop pops observations in the order of its (reversed) input
list, assigning consecutive ids from `n`; each new object starts with the
birth histories of `handle_birth_fields`. -/
lemma birth_loop_spec (dt : ℚ) (f : ℤ) :
    ∀ (l : List Vec2) (n : ℕ),
      (birth_loop dt f l n).map (fun t => t.obj_id) = List.range' n l.length ∧
      (birth_loop dt f l n).map (fun t => t.state_estimates) =
        l.map (fun o => [⟨o.x, o.y, 0, 0⟩]) ∧
      (birth_loop dt f l n).map (fun t => t.frames) = l.map (fun _ => [f]) ∧
      (birth_loop dt f l n).map (fun t => t.observations) =
        l.map (fun o => [some o]) := by
  intro l
  induction l with
  | nil => intro n; simp [birth_loop]
  | cons o rest ih =>
    intro n
    obtain ⟨h1, h2, h3, h4⟩ := ih (n + 1)
    obtain ⟨g1, g2, g3, g4⟩ := handle_birth_fields dt n f o
    simp [birth_loop, h1, h2, h3, h4, g1, g2, g3, g4, List.range']

/-- C2 amended: every observation REMAINING IN THE UNCLAIMED LIST after the
association pass spawns exactly one new `TrackedObject` — popped from the
end of the list, with consecutive ids starting at the current counter, birth
frame `f`, the single birth observation, and initial state
`[obs_x, obs_y, 0, 0]` — and in particular, with zero live objects and one
observation exactly one object with id 0, birth frame `f` and initial state
`[obs_x, obs_y, 0, 0]` is created.  (Observations positioned after a claimed
observation in an object's scan are dropped from the unclaimed list by the
`break` and spawn nothing; see the counterexample.) -/
theorem C2_amended_unclaimed_spawn_births :
    (∀ (dt : ℚ) (f : ℤ) (u : List Vec2) (n0 : ℕ),
      (births dt f u n0).map (fun t => t.obj_id) = List.range' n0 u.length ∧
      (births dt f u n0).map (fun t => t.state_estimates) =
        u.reverse.map (fun o => [⟨o.x, o.y, 0, 0⟩]) ∧
      (births dt f u n0).map (fun t => t.frames) = u.reverse.map (fun _ => [f]) ∧
      (births dt f u n0).map (fun t => t.observations) =
        u.reverse.map (fun o => [some o])) ∧
    (∀ (dt : ℚ) (A : Mat3) (f : ℤ) (o : Vec2),
      (handle_frame_data (initTracker dt A) f [o]).objects.map
        (fun t => t.obj_id) = [0] ∧
      (handle_frame_data (initTracker dt A) f [o]).objects.map
        (fun t => t.state_estimates) = [[⟨o.x, o.y, 0, 0⟩]] ∧
      (handle_frame_data (initTracker dt A) f [o]).objects.map
        (fun t => t.frames) = [[f]] ∧
      (handle_frame_data (initTracker dt A) f [o]).next_obj_id = 1) := by
  constructor
  · intro dt f u n0
    have h := birth_loop_spec dt f u.reverse n0
    simpa [births, List.length_reverse] using h
  · intro dt A f o
    obtain ⟨g1, g2, g3, g4⟩ := handle_birth_fields dt 0 f o
    simp [handle_frame_data, initTracker, association_pass, births,
      birth_loop, g1, g2, g3]


/-- The replay loop never changes an object's id. -/
lemma replay_missing_obj_id (f : ℤ) :
    ∀ (l : List ℤ) (t : TrackedObject),
      (replay_missing f t l).1.obj_id = t.obj_id := by
  intro l
  induction l with
  | nil => intro t; rfl
  | cons m rest ih =>
    intro t
    simp only [replay_missing]
    split
    next => rfl
    next => exact ih _

/-- `data_association_and_kalman_update` never changes an object's id. -/
lemma da_obj_id (f : ℤ) (t : TrackedObject) (u : List Vec2) :
    (data_association_and_kalman_update f t u).1.obj_id = t.obj_id := by
  simp only [data_association_and_kalman_update]
  split
  next => exact replay_missing_obj_id f _ t
  next =>
    cases hs : (associate (mat24MulVec4 (replay_missing f t
        (intRange (t.last_frame + 1) (f - (t.last_frame + 1)).toNat)).1.kfilt.C
        ((replay_missing f t (intRange (t.last_frame + 1)
          (f - (t.last_frame + 1)).toNat)).1.kfilt.step1 false).1) u).2 with
    | none => simp [replay_missing_obj_id]
    | some o => simp [replay_missing_obj_id]

/-- When no object is finalized during a pass, the surviving list keeps all
processed objects with their ids, in processing order. -/
lemma pass_living_ids (f : ℤ) :
    ∀ (l : List TrackedObject) (u : List Vec2),
      (association_pass f l u).2.2 = [] →
      (association_pass f l u).1.map (fun t => t.obj_id) =
        l.map (fun t => t.obj_id) := by
  intro l
  induction l with
  | nil => intro u _; rfl
  | cons obj rest ih =>
    intro u h
    simp only [association_pass] at h ⊢
    split at h
    next hc => simp at h
    next hc =>
      rw [if_neg hc]
      simp only [List.map_cons, da_obj_id]
      exact congrArg _ (ih _ h)

/-- C8 amended: the pop loop processes live objects in the reverse of the
stored list order, and survivors are re-appended in pop order; hence when no
object dies and no birth occurs during a frame, the stored order after the
call is the reverse of the order before it.  The processing order is
last-created-first only on the frame immediately after creation and
alternates on subsequent frames (see the counterexample), rather than being
the same fixed order on every frame. -/
theorem C8_amended_no_death_frame_reverses_order (tr : Tracker) (f : ℤ)
    (obs : List Vec2)
    (hnodeath : (association_pass f tr.objects.reverse obs).2.2 = [])
    (hnobirth : (association_pass f tr.objects.reverse obs).2.1 = []) :
    (handle_frame_data tr f obs).objects.map (fun t => t.obj_id) =
      (tr.objects.map (fun t => t.obj_id)).reverse := by
  simp only [handle_frame_data, hnobirth, births, birth_loop,
    List.reverse_nil, List.append_nil]
  rw [pass_living_ids f tr.objects.reverse obs hnodeath, List.map_reverse]

/-- Witness for C8 amended: the no-death, no-birth frame 1 of run D. -/
theorem C8_witness :
    ((association_pass 1 trD0lit.objects.reverse []).2.2 = [] ∧
     (association_pass 1 trD0lit.objects.reverse []).2.1 = []) ∧
    (handle_frame_data trD0lit 1 []).objects.map (fun t => t.obj_id) =
      (trD0lit.objects.map (fun t => t.obj_id)).reverse := by
  have h : association_pass 1 trD0lit.objects.reverse [] =
      (trD1lit.objects, [], []) := by
    norm_num [trD0lit, trD1lit, handle_frame_data, initTracker,
      association_pass, births, birth_loop, handle_birth,
      data_association_and_kalman_update, replay_missing, intRange, associate,
      dist_sq, sqrt_leB, sqrt_gtB, TrackedObject.check_done, covar_scalar_sq,
      max_position_covarance, data_association_distance_threshold_meters,
      KalmanFilter.step, KalmanFilter.step1, KalmanFilter.step2, motion_model,
      motion_noise_covariance, observation_model, observation_noise_covariance,
      initial_covariance, mat2Add, mat2Inv, mat24MulMat4, mat24MulMat42,
      mat24Transpose, mat4MulMat42, mat42MulMat2, mat42MulMat24, mat24MulVec4,
      mat42MulVec2, mat4Mul, mat4Add, mat4Sub, mat4Transpose, mat4MulVec,
      mat4Identity, vec2Sub, vec4Add, List.getLast?]
  have h1 : (association_pass 1 trD0lit.objects.reverse []).2.2 = [] := by
    rw [h]
  have h2 : (association_pass 1 trD0lit.objects.reverse []).2.1 = [] := by
    rw [h]
  exact ⟨⟨h1, h2⟩, C8_amended_no_death_frame_reverses_order trD0lit 1 [] h1 h2⟩

/-- Taking up to the first index satisfying a predicate is taking while the
predicate fails (the trim's `np.nonzero(cond)[0][0]` / full-length fallback
pattern). -/
lemma take_findIdx_eq_takeWhile {α : Type} (p : α → Bool) :
    ∀ (l : List α), l.take (l.findIdx p) = l.takeWhile (fun a => !(p a)) := by
  intro l
  induction l with
  | nil => rfl
  | cons a l ih =>
    by_cases hp : p a
    · simp [List.findIdx_cons, hp, List.takeWhile_cons]
    · simp [List.findIdx_cons, hp, List.takeWhile_cons, ih]

/-- In a nondecreasing integer list, taking while `≤ c` equals filtering by
`≤ c`: once an element exceeds `c`, all later ones do. -/
lemma takeWhile_le_eq_filter (c : ℤ) :
    ∀ (l : List ℤ), l.Pairwise (fun a b => a ≤ b) →
      l.takeWhile (fun fr => !(decide (c < fr))) =
        l.filter (fun fr => decide (fr ≤ c)) := by
  intro l
  induction l with
  | nil => intro _; rfl
  | cons a l ih =>
    intro hp
    rw [List.pairwise_cons] at hp
    by_cases hc : c < a
    · have hrest : l.filter (fun fr => decide (fr ≤ c)) = [] := by
        rw [List.filter_eq_nil_iff]
        intro b hb
        have := hp.1 b hb
        simp only [decide_eq_true_eq]
        omega
      simp [List.takeWhile_cons, List.filter_cons, hc, hrest,
        show ¬ (a ≤ c) by omega]
    · simp [List.takeWhile_cons, List.filter_cons, hc, ih hp.2,
        show a ≤ c by omega]


/-- C6 amended: at finalization the histories are trimmed at the first entry
whose FRAME NUMBER exceeds the last real-observation frame — for the
nondecreasing frame lists the tracker produces, exactly the entries with
frame number at most `_last_observation_frame` are kept, so a trailing
coasting entry sharing the last observation's frame number survives the trim
(see the counterexample) — and the trajectory is persisted only if the
median of the per-frame uncertainty scalars over that trimmed history is at
most `7111 dt³/3`. -/
theorem C6_amended_trim_and_median_gate (Ainv : Mat3) (obj : TrackedObject)
    (hs : obj.frames.Pairwise (fun a b => a ≤ b))
    (hne : save_data Ainv obj ≠ []) :
    (trim_to_last_observation obj).frames =
      obj.frames.filter (fun fr => decide (fr ≤ obj.last_observation_frame)) ∧
    median_sqrt_leB
      ((trim_to_last_observation obj).covariance_estimates.map covar_scalar_sq)
      (median_covar_scalar_threshold obj.dt) = true := by
  constructor
  · simp only [trim_to_last_observation]
    rw [take_findIdx_eq_takeWhile]
    exact takeWhile_le_eq_filter _ _ hs
  · cases hmed : median_sqrt_leB
      ((trim_to_last_observation obj).covariance_estimates.map covar_scalar_sq)
      (median_covar_scalar_threshold obj.dt) with
    | false =>
      exfalso
      apply hne
      simp [save_data, hmed]
    | true => rfl

/-- Witness for C6 amended at the persisted object `c6wObj`. -/
theorem C6_witness :
    (c6wObj.frames.Pairwise (fun a b => a ≤ b) ∧ save_data id3 c6wObj ≠ []) ∧
    ((trim_to_last_observation c6wObj).frames =
      c6wObj.frames.filter (fun fr => decide (fr ≤ c6wObj.last_observation_frame)) ∧
     median_sqrt_leB
       ((trim_to_last_observation c6wObj).covariance_estimates.map covar_scalar_sq)
       (median_covar_scalar_threshold c6wObj.dt) = true) := by
  have hs : c6wObj.frames.Pairwise (fun a b => a ≤ b) := by
    norm_num [c6wObj, List.pairwise_cons]
  have hne : save_data id3 c6wObj ≠ [] := by
    intro h
    norm_num [save_data, trim_to_last_observation, c6wObj, small_cov,
      median_sqrt_leB, sqrt_avg_leB, sqrt_leB, covar_scalar_sq,
      median_covar_scalar_threshold, minimum_excursion_distance,
      np_max_scalar_axis, list_max, list_min, save_rows, pixel_position, id3,
      List.findIdx, List.findIdx.go, List.mergeSort] at h
    exact List.cons_ne_nil _ _ h
  exact ⟨⟨hs, hne⟩, C6_amended_trim_and_median_gate id3 c6wObj hs hne⟩


/-!
Exclusive-claim lemmas (C5): the observation scan, the bookkeeping of
recorded claims, and the per-frame pass invariant.
-/

/-- Every observation left unclaimed by the scan comes from its input. -/
lemma associate_unclaimed_mem (p : Vec2) :
    ∀ (u : List Vec2), ∀ x ∈ (associate p u).1, x ∈ u := by
  intro u
  induction u with
  | nil => intro x hx; simp [associate] at hx
  | cons o rest ih =>
    intro x hx
    simp only [associate] at hx
    split at hx
    next => simp at hx
    next =>
      simp only [List.mem_cons] at hx ⊢
      rcases hx with h | h
      · exact Or.inl h
      · exact Or.inr (ih x h)

/-- When the scan claims nothing, the unclaimed list is the whole input. -/
lemma associate_none_eq (p : Vec2) :
    ∀ (u : List Vec2), (associate p u).2 = none → (associate p u).1 = u := by
  intro u
  induction u with
  | nil => intro _; rfl
  | cons o rest ih =>
    intro h
    simp only [associate] at h ⊢
    split at h
    next hg => simp at h
    next hg => rw [if_neg hg]; exact congrArg (List.cons o) (ih h)

/-- A claimed observation comes from the scan's input. -/
lemma associate_some_mem (p : Vec2) (o : Vec2) :
    ∀ (u : List Vec2), (associate p u).2 = some o → o ∈ u := by
  intro u
  induction u with
  | nil => intro h; simp [associate] at h
  | cons a rest ih =>
    intro h
    simp only [associate] at h
    split at h
    next => simp at h; simp [h]
    next => exact List.mem_cons_of_mem _ (ih h)

/-- A claimed observation lies within the association distance gate. -/
lemma associate_some_gate (p : Vec2) (o : Vec2) :
    ∀ (u : List Vec2), (associate p u).2 = some o →
      sqrt_leB (dist_sq p o) data_association_distance_threshold_meters = true := by
  intro u
  induction u with
  | nil => intro h; simp [associate] at h
  | cons a rest ih =>
    intro h
    simp only [associate] at h
    split at h
    next hg => simp at h; exact h ▸ hg
    next => exact ih h

/-- Every observation left unclaimed by the scan lies outside the distance
gate of the scanning object's predicted position. -/
lemma associate_unclaimed_gate (p : Vec2) :
    ∀ (u : List Vec2), ∀ x ∈ (associate p u).1,
      sqrt_leB (dist_sq p x) data_association_distance_threshold_meters = false := by
  intro u
  induction u with
  | nil => intro x hx; simp [associate] at hx
  | cons a rest ih =>
    intro x hx
    simp only [associate] at hx
    split at hx
    next => simp at hx
    next hg =>
      simp only [List.mem_cons] at hx
      rcases hx with h | h
      · subst h; exact Bool.not_eq_true _ ▸ (by simpa using hg)
      · exact ih x h

/-- The claimed observation is not among the unclaimed survivors: it is
inside the gate, they are outside. -/
lemma associate_some_not_unclaimed (p : Vec2) (o : Vec2) (u : List Vec2)
    (h : (associate p u).2 = some o) : o ∉ (associate p u).1 := by
  intro hmem
  have h1 := associate_some_gate p o u h
  have h2 := associate_unclaimed_gate p u o hmem
  rw [h1] at h2
  exact Bool.noConfusion h2

/-- An object whose recorded frames all precede `f` has no claims at `f`. -/
lemma claims_at_eq_nil (t : TrackedObject) (f : ℤ)
    (hfr : ∀ fr ∈ t.frames, fr < f) : claims_at t f = [] := by
  rw [claims_at, List.filterMap_eq_nil_iff]
  intro p hp
  obtain ⟨a, b⟩ := p
  have h1 := (List.of_mem_zip hp).1
  have : a ≠ f := ne_of_lt (hfr a h1)
  simp [this]

/-- Appending one `(frame, observation)` entry to equal-length histories
appends at most that observation to the claims at `g`. -/
lemma zipfm_append (g : ℤ) (l1 : List ℤ) (l2 : List (Option Vec2))
    (h : l1.length = l2.length) (fr : ℤ) (ob : Option Vec2) :
    ((l1 ++ [fr]).zip (l2 ++ [ob])).filterMap
        (fun p => if p.1 = g then p.2 else none) =
      (l1.zip l2).filterMap (fun p => if p.1 = g then p.2 else none) ++
        (if fr = g then ob else none).toList := by
  rw [List.zip_append h, List.filterMap_append]
  by_cases hf : fr = g <;> cases ob <;> simp [hf]

/-- The replay loop preserves the equal length of the frame and observation
histories and, because it records only the missing-observation sentinel,
changes no recorded claims at any frame. -/
lemma replay_missing_hist (f : ℤ) :
    ∀ (l : List ℤ) (t : TrackedObject),
      t.frames.length = t.observations.length →
      ((replay_missing f t l).1.frames.length =
        (replay_missing f t l).1.observations.length ∧
       ∀ (g : ℤ), claims_at (replay_missing f t l).1 g = claims_at t g) := by
  intro l
  induction l with
  | nil => intro t h; exact ⟨h, fun g => rfl⟩
  | cons m rest ih =>
    intro t h
    simp only [replay_missing]
    split
    next hc =>
      refine ⟨by simp [h], fun g => ?_⟩
      simp only [claims_at]
      rw [zipfm_append g t.frames t.observations h m none]
      simp [ite_self]
    next hc =>
      have hlen2 : (t.frames ++ [m]).length = (t.observations ++ [none]).length := by
        simp [h]
      have hrec := ih
        { t with
          kfilt := (t.kfilt.step none false).1
          state_estimates := t.state_estimates ++ [(t.kfilt.step none false).2.1]
          covariance_estimates :=
            t.covariance_estimates ++ [(t.kfilt.step none false).2.2]
          observations := t.observations ++ [none]
          frames := t.frames ++ [m]
          last_frame := f } hlen2
      refine ⟨hrec.1, fun g => ?_⟩
      rw [hrec.2 g]
      simp only [claims_at]
      rw [zipfm_append g t.frames t.observations h m none]
      simp [ite_self]


/-- Per-object association facts: one `data_association_and_kalman_update`
call records at most one claim at the processing frame; a recorded claim
comes from the offered observations and is absent from the returned
unclaimed list; and every returned unclaimed observation comes from the
offered ones. -/
lemma da_claims (f : ℤ) (t : TrackedObject) (u : List Vec2)
    (hlen : t.frames.length = t.observations.length)
    (hfr : ∀ fr ∈ t.frames, fr < f) :
    (claims_at (data_association_and_kalman_update f t u).1 f).length ≤ 1 ∧
    (∀ o ∈ claims_at (data_association_and_kalman_update f t u).1 f,
       o ∈ u ∧ o ∉ (data_association_and_kalman_update f t u).2.1) ∧
    (∀ x ∈ (data_association_and_kalman_update f t u).2.1, x ∈ u) := by
  have hnil : claims_at t f = [] := claims_at_eq_nil t f hfr
  have hrep := replay_missing_hist f
    (intRange (t.last_frame + 1) (f - (t.last_frame + 1)).toNat) t hlen
  simp only [data_association_and_kalman_update]
  split
  next hdone =>
    refine ⟨?_, ?_, fun x hx => hx⟩
    · rw [hrep.2 f, hnil]
      simp
    · intro o ho
      rw [hrep.2 f, hnil] at ho
      simp at ho
  next hdone =>
    set t1 := (replay_missing f t (intRange (t.last_frame + 1)
      (f - (t.last_frame + 1)).toNat)).1 with ht1
    set scan := associate (mat24MulVec4 t1.kfilt.C ((t1.kfilt.step1 false).1)) u
      with hscan
    have hclaims1 : claims_at t1 f = [] := by rw [hrep.2 f, hnil]
    cases hsc : scan.2 with
    | none =>
      simp only [hsc]
      refine ⟨?_, ?_, ?_⟩
      · rw [hclaims1]
        simp
      · intro o ho
        rw [hclaims1] at ho
        simp at ho
      · intro x hx
        exact associate_unclaimed_mem _ u x (hscan ▸ hx)
    | some o =>
      simp only [hsc]
      have happ : claims_at
          { t1 with
            kfilt := (t1.kfilt.step2 (t1.kfilt.step1 false) (some o)).1
            state_estimates := t1.state_estimates ++
              [(t1.kfilt.step2 (t1.kfilt.step1 false) (some o)).2.1]
            covariance_estimates := t1.covariance_estimates ++
              [(t1.kfilt.step2 (t1.kfilt.step1 false) (some o)).2.2]
            observations := t1.observations ++ [some o]
            frames := t1.frames ++ [f]
            last_observation_frame := f } f = [o] := by
        simp only [claims_at]
        rw [zipfm_append f t1.frames t1.observations hrep.1 f (some o)]
        have h0 : claims_at t1 f = [] := hclaims1
        simp only [claims_at] at h0
        rw [h0]
        simp
      refine ⟨?_, ?_, ?_⟩
      · rw [happ]
        simp
      · intro o2 ho2
        rw [happ] at ho2
        simp only [List.mem_singleton] at ho2
        subst ho2
        refine ⟨associate_some_mem _ o2 u (hscan ▸ hsc), ?_⟩
        intro hmem
        exact associate_some_not_unclaimed _ o2 u (hscan ▸ hsc) (hscan ▸ hmem)
      · intro x hx
        exact associate_unclaimed_mem _ u x (hscan ▸ hx)


/-- The frame-level pass invariant: over one association pass (any processing
list, any offered observations), every processed object records at most one
claim; every recorded claim comes from the offered observations and is
missing from the final unclaimed list; the final unclaimed list comes from
the offered observations; and an observation value claimed by two processed
objects forces them to have the same id (each claim is removed from the list
offered to every later object, and equal values at equal distance can never
straddle the gate). -/
lemma pass_claims_inv (f : ℤ) :
    ∀ (objs : List TrackedObject) (u0 : List Vec2),
      (∀ t ∈ objs, t.frames.length = t.observations.length ∧
        ∀ fr ∈ t.frames, fr < f) →
      (∀ t', (t' ∈ (association_pass f objs u0).1 ∨
              t' ∈ (association_pass f objs u0).2.2) →
         (claims_at t' f).length ≤ 1 ∧
         (∀ o ∈ claims_at t' f, o ∈ u0 ∧
            o ∉ (association_pass f objs u0).2.1)) ∧
      (∀ x ∈ (association_pass f objs u0).2.1, x ∈ u0) ∧
      (∀ t1, (t1 ∈ (association_pass f objs u0).1 ∨
              t1 ∈ (association_pass f objs u0).2.2) →
       ∀ t2, (t2 ∈ (association_pass f objs u0).1 ∨
              t2 ∈ (association_pass f objs u0).2.2) →
         ∀ o, o ∈ claims_at t1 f → o ∈ claims_at t2 f →
           t1.obj_id = t2.obj_id) := by
  intro objs
  induction objs with
  | nil =>
    intro u0 H
    refine ⟨?_, fun x hx => hx, ?_⟩
    · intro t' ht'
      simp only [association_pass, List.not_mem_nil, or_self] at ht'
    · intro t1 ht1
      simp only [association_pass, List.not_mem_nil, or_self] at ht1
  | cons obj rest ih =>
    intro u0 H
    have Hobj := H obj (List.mem_cons_self obj rest)
    have Hrest : ∀ t ∈ rest, t.frames.length = t.observations.length ∧
        ∀ fr ∈ t.frames, fr < f :=
      fun t ht => H t (List.mem_cons_of_mem _ ht)
    obtain ⟨hA, hB, hC⟩ := da_claims f obj u0 Hobj.1 Hobj.2
    simp only [association_pass]
    set r := data_association_and_kalman_update f obj u0 with hr
    obtain ⟨ihA, ihC, ihD⟩ := ih r.2.1 Hrest
    have key1 : ∀ t', (t' = r.1 ∨
        (t' ∈ (association_pass f rest r.2.1).1 ∨
         t' ∈ (association_pass f rest r.2.1).2.2)) →
        (claims_at t' f).length ≤ 1 ∧
        ∀ o ∈ claims_at t' f, o ∈ u0 ∧
          o ∉ (association_pass f rest r.2.1).2.1 := by
      intro t' ht'
      rcases ht' with rfl | htail
      · refine ⟨hA, fun o ho => ⟨(hB o ho).1, fun hmem => ?_⟩⟩
        exact (hB o ho).2 (ihC _ hmem)
      · have h := ihA t' htail
        exact ⟨h.1, fun o ho => ⟨hC o (h.2 o ho).1, (h.2 o ho).2⟩⟩
    have key2 : ∀ x ∈ (association_pass f rest r.2.1).2.1, x ∈ u0 :=
      fun x hx => hC x (ihC x hx)
    have key3 : ∀ t1, (t1 = r.1 ∨
        (t1 ∈ (association_pass f rest r.2.1).1 ∨
         t1 ∈ (association_pass f rest r.2.1).2.2)) →
      ∀ t2, (t2 = r.1 ∨
        (t2 ∈ (association_pass f rest r.2.1).1 ∨
         t2 ∈ (association_pass f rest r.2.1).2.2)) →
        ∀ o, o ∈ claims_at t1 f → o ∈ claims_at t2 f →
          t1.obj_id = t2.obj_id := by
      intro t1 ht1 t2 ht2 o ho1 ho2
      rcases ht1 with rfl | h1 <;> rcases ht2 with rfl | h2
      · rfl
      · exact absurd ((ihA t2 h2).2 o ho2).1 (fun hu => (hB o ho1).2 hu)
      · exact absurd ((ihA t1 h1).2 o ho1).1 (fun hu => (hB o ho2).2 hu)
      · exact ihD t1 h1 t2 h2 o ho1 ho2
    split
    next hdone =>
      refine ⟨?_, key2, ?_⟩
      · intro t' ht'
        apply key1
        rcases ht' with h | h
        · exact Or.inr (Or.inl h)
        · rcases List.mem_cons.mp h with h | h
          · exact Or.inl h
          · exact Or.inr (Or.inr h)
      · intro t1 ht1 t2 ht2
        apply key3
        · rcases ht1 with h | h
          · exact Or.inr (Or.inl h)
          · rcases List.mem_cons.mp h with h | h
            · exact Or.inl h
            · exact Or.inr (Or.inr h)
        · rcases ht2 with h | h
          · exact Or.inr (Or.inl h)
          · rcases List.mem_cons.mp h with h | h
            · exact Or.inl h
            · exact Or.inr (Or.inr h)
    next hdone =>
      refine ⟨?_, key2, ?_⟩
      · intro t' ht'
        apply key1
        rcases ht' with h | h
        · rcases List.mem_cons.mp h with h | h
          · exact Or.inl h
          · exact Or.inr (Or.inl h)
        · exact Or.inr (Or.inr h)
      · intro t1 ht1 t2 ht2
        apply key3
        · rcases ht1 with h | h
          · rcases List.mem_cons.mp h with h | h
            · exact Or.inl h
            · exact Or.inr (Or.inl h)
          · exact Or.inr (Or.inr h)
        · rcases ht2 with h | h
          · rcases List.mem_cons.mp h with h | h
            · exact Or.inl h
            · exact Or.inr (Or.inl h)
          · exact Or.inr (Or.inr h)

/-- C5: over one per-frame association pass (whose processing list is the
reversed live-object list, given any offered observation list), every
processed object — surviving or finalized — records at most one claim at the
frame; every recorded claim is one of the offered observations; and two
processed objects with different ids never record the same raw observation
coordinate pair at the frame.  The hypothesis (histories of equal length
recording only earlier frames) holds of every live object when a frame is
processed in increasing-frame order. -/
theorem C5_exclusive_observation_claims (f : ℤ) (objs : List TrackedObject)
    (u0 : List Vec2)
    (H : ∀ t ∈ objs, t.frames.length = t.observations.length ∧
      ∀ fr ∈ t.frames, fr < f) :
    (∀ t' ∈ (association_pass f objs u0).1 ++ (association_pass f objs u0).2.2,
       (claims_at t' f).length ≤ 1 ∧ ∀ o ∈ claims_at t' f, o ∈ u0) ∧
    (∀ t1 ∈ (association_pass f objs u0).1 ++ (association_pass f objs u0).2.2,
     ∀ t2 ∈ (association_pass f objs u0).1 ++ (association_pass f objs u0).2.2,
       t1.obj_id ≠ t2.obj_id →
         ∀ o ∈ claims_at t1 f, o ∉ claims_at t2 f) := by
  obtain ⟨h1, h2, h3⟩ := pass_claims_inv f objs u0 H
  constructor
  · intro t' ht'
    rw [List.mem_append] at ht'
    exact ⟨(h1 t' ht').1, fun o ho => ((h1 t' ht').2 o ho).1⟩
  · intro t1 ht1 t2 ht2 hne o ho1 ho2
    rw [List.mem_append] at ht1 ht2
    exact hne (h3 t1 ht1 t2 ht2 o ho1 ho2)

/-- Witness for C5: one newborn live object and one offered observation at
the next frame. -/
theorem C5_witness :
    (∀ t ∈ [handle_birth 1 0 0 (⟨0, 0⟩ : Vec2)],
       t.frames.length = t.observations.length ∧ ∀ fr ∈ t.frames, fr < 1) ∧
    ((∀ t' ∈ (association_pass 1 [handle_birth 1 0 0 (⟨0, 0⟩ : Vec2)] [⟨0, 0⟩]).1 ++
          (association_pass 1 [handle_birth 1 0 0 (⟨0, 0⟩ : Vec2)] [⟨0, 0⟩]).2.2,
        (claims_at t' 1).length ≤ 1 ∧
          ∀ o ∈ claims_at t' 1, o ∈ [(⟨0, 0⟩ : Vec2)]) ∧
     (∀ t1 ∈ (association_pass 1 [handle_birth 1 0 0 (⟨0, 0⟩ : Vec2)] [⟨0, 0⟩]).1 ++
          (association_pass 1 [handle_birth 1 0 0 (⟨0, 0⟩ : Vec2)] [⟨0, 0⟩]).2.2,
      ∀ t2 ∈ (association_pass 1 [handle_birth 1 0 0 (⟨0, 0⟩ : Vec2)] [⟨0, 0⟩]).1 ++
          (association_pass 1 [handle_birth 1 0 0 (⟨0, 0⟩ : Vec2)] [⟨0, 0⟩]).2.2,
        t1.obj_id ≠ t2.obj_id →
          ∀ o ∈ claims_at t1 1, o ∉ claims_at t2 1)) := by
  have H : ∀ t ∈ [handle_birth 1 0 0 (⟨0, 0⟩ : Vec2)],
      t.frames.length = t.observations.length ∧ ∀ fr ∈ t.frames, fr < 1 := by
    intro t ht
    rw [List.mem_singleton] at ht
    subst ht
    refine ⟨rfl, ?_⟩
    intro fr hfr
    have hfr0 : (handle_birth 1 0 0 (⟨0, 0⟩ : Vec2)).frames = [0] := rfl
    rw [hfr0, List.mem_singleton] at hfr
    omega
  exact ⟨H, C5_exclusive_observation_claims 1 _ _ H⟩


/-!
Soundness of the square-root-free comparison helpers with respect to
`Real.sqrt`: each helper decides exactly the comparison the source performs
on square roots (for the nonnegative radicands the tracker produces).
-/

/-- `sqrt_leB m t` decides `√m ≤ t`. -/
lemma sqrt_leB_iff (m t : ℚ) :
    sqrt_leB m t = true ↔ Real.sqrt (m : ℝ) ≤ (t : ℝ) := by
  unfold sqrt_leB
  by_cases ht : t < 0
  · simp only [if_pos ht, Bool.false_eq_true, false_iff, not_le]
    have h0 := Real.sqrt_nonneg (m : ℝ)
    have htr : (t : ℝ) < 0 := by exact_mod_cast ht
    linarith
  · simp only [if_neg ht, decide_eq_true_eq]
    rw [Real.sqrt_le_iff]
    push_neg at ht
    constructor
    · intro h
      exact ⟨by exact_mod_cast ht, by exact_mod_cast h⟩
    · intro h
      exact_mod_cast h.2

/-- `sqrt_gtB m t` decides `t < √m` (the source's `scalar > threshold`). -/
lemma sqrt_gtB_iff (m t : ℚ) :
    sqrt_gtB m t = true ↔ (t : ℝ) < Real.sqrt (m : ℝ) := by
  unfold sqrt_gtB
  by_cases ht : t < 0
  · simp only [if_pos ht, true_iff]
    have h0 := Real.sqrt_nonneg (m : ℝ)
    have htr : (t : ℝ) < 0 := by exact_mod_cast ht
    linarith
  · simp only [if_neg ht, decide_eq_true_eq]
    push_neg at ht
    rw [Real.lt_sqrt (by exact_mod_cast ht : (0:ℝ) ≤ (t:ℝ))]
    constructor <;> intro h <;> exact_mod_cast h

/-- `sqrt_avg_leB a b t` decides `(√a + √b)/2 ≤ t` for nonnegative `a`, `b`
(the even-length median case). -/
lemma sqrt_avg_leB_iff (a b t : ℚ) (ha : 0 ≤ a) (hb : 0 ≤ b) :
    sqrt_avg_leB a b t = true ↔
      (Real.sqrt (a : ℝ) + Real.sqrt (b : ℝ)) / 2 ≤ (t : ℝ) := by
  have har : (0:ℝ) ≤ (a:ℝ) := by exact_mod_cast ha
  have hbr : (0:ℝ) ≤ (b:ℝ) := by exact_mod_cast hb
  have hsa0 := Real.sqrt_nonneg (a : ℝ)
  have hsb0 := Real.sqrt_nonneg (b : ℝ)
  have hsa2 : Real.sqrt (a:ℝ) ^ 2 = (a:ℝ) := Real.sq_sqrt har
  have hsb2 : Real.sqrt (b:ℝ) ^ 2 = (b:ℝ) := Real.sq_sqrt hbr
  unfold sqrt_avg_leB
  by_cases ht : t < 0
  · simp only [if_pos ht, Bool.false_eq_true, false_iff, not_le]
    have htr : (t : ℝ) < 0 := by exact_mod_cast ht
    nlinarith
  · push_neg at ht
    have htr : (0:ℝ) ≤ (t:ℝ) := by exact_mod_cast ht
    simp only [if_neg (not_lt.mpr ht), Bool.and_eq_true, decide_eq_true_eq]
    constructor
    · rintro ⟨h1, h2⟩
      have h1r : (0:ℝ) ≤ 4 * (t:ℝ)^2 - ((a:ℝ) + (b:ℝ)) := by exact_mod_cast h1
      have h2r : 4 * ((a:ℝ) * (b:ℝ)) ≤ (4 * (t:ℝ)^2 - ((a:ℝ) + (b:ℝ)))^2 := by
        exact_mod_cast h2
      have hkey : 2 * (Real.sqrt (a:ℝ) * Real.sqrt (b:ℝ)) ≤
          4 * (t:ℝ)^2 - ((a:ℝ) + (b:ℝ)) := by
        nlinarith [mul_nonneg hsa0 hsb0, h1r, h2r, hsa2, hsb2]
      nlinarith [hkey, add_nonneg hsa0 hsb0, hsa2, hsb2, htr]
    · intro h
      have h' : Real.sqrt (a:ℝ) + Real.sqrt (b:ℝ) ≤ 2 * (t:ℝ) := by linarith
      have hu : 2 * (Real.sqrt (a:ℝ) * Real.sqrt (b:ℝ)) ≤
          4 * (t:ℝ)^2 - ((a:ℝ) + (b:ℝ)) := by
        nlinarith [add_nonneg hsa0 hsb0, h', hsa2, hsb2]
      constructor
      · have : (0:ℝ) ≤ 4 * (t:ℝ)^2 - ((a:ℝ) + (b:ℝ)) := by
          nlinarith [mul_nonneg hsa0 hsb0, hu]
        exact_mod_cast this
      · have : 4 * ((a:ℝ) * (b:ℝ)) ≤ (4 * (t:ℝ)^2 - ((a:ℝ) + (b:ℝ)))^2 := by
          nlinarith [mul_nonneg hsa0 hsb0, hu, hsa2, hsb2]
        exact_mod_cast this
end Kalmanize
